import Mathlib

/-!
# Playbacc scrobbling engine — verification development

A shallow embedding of the core of the `playbacc` scrobbling service, together
with proofs of its specified behaviour.

Conventions of the embedding:

* All millisecond quantities and timestamps are modelled as rationals (`ℚ`):
  the source computes thresholds with real-number division
  (e.g. `trackDurationMs * minPlayPercent / 100`), which is exact rational
  arithmetic for the integer inputs involved.
* Database tables are modelled as lists of row structures; `findFirst`
  becomes `List.find?` (scan in insertion order) and inserts append.
* Configuration values read from the environment become structure fields,
  with the code's defaults as a distinguished default configuration.
* Network / external effects (MusicBrainz resolution, the fire-and-forget
  relationship sync) are modelled by oracle functions passed as parameters
  and by an event log in the store, respectively.
-/

namespace Playbacc

/-! ## Scrobble threshold (`meetsScrobbleThreshold`, scrobbles module) -/

/-- Source: `SCROBBLE_CONFIG`: min play seconds / percent, read from the environment
with defaults 30 and 50. -/
structure ScrobbleConfig where
  minPlaySeconds : ℚ
  minPlayPercent : ℚ
deriving DecidableEq

/-- The defaults of `SCROBBLE_CONFIG` (30 s, 50 %). -/
def defaultScrobbleConfig : ScrobbleConfig :=
  { minPlaySeconds := 30, minPlayPercent := 50 }

/-- Source: `meetsScrobbleThreshold(playedMs, trackDurationMs)`: a play qualifies if it
reaches the minimum play duration OR the minimum percentage of the track. -/
def meetsScrobbleThreshold (cfg : ScrobbleConfig) (playedMs trackDurationMs : ℚ) : Bool :=
  let minDurationMs := cfg.minPlaySeconds * 1000
  let minPercentMs := trackDurationMs * cfg.minPlayPercent / 100
  decide (minDurationMs ≤ playedMs) || decide (minPercentMs ≤ playedMs)

/-! ## Enrichment queue failure path (`failJob`, mb-queue module) -/

/-- Job status enum of `mb_enrichment_jobs`. -/
inductive JobStatus where
  | pending
  | running
  | succeeded
  | failed
deriving DecidableEq

/-- The fields of an `mb_enrichment_jobs` row that `failJob` reads or writes. -/
structure MbEnrichmentJob where
  status : JobStatus
  attempts : Nat
  max_attempts : Nat
  run_after : Nat
  locked_at : Option Nat
  locked_by : Option String
  last_error : Option String
deriving DecidableEq

/-- Source: `QUEUE_CONFIG`: backoff base, multiplier and cap. -/
structure QueueConfig where
  baseBackoffMs : Nat
  backoffMultiplier : Nat
  maxBackoffMs : Nat
deriving DecidableEq

/-- The defaults of `QUEUE_CONFIG` (60 s base, ×2, 1 h cap). -/
def defaultQueueConfig : QueueConfig :=
  { baseBackoffMs := 60000, backoffMultiplier := 2, maxBackoffMs := 3600000 }

/-- Source: `failJob`: increment attempts; permanently fail at `max_attempts`, else
return the job to pending with exponential-backoff `run_after` and the lock
fields cleared.  `now` is the current time in epoch milliseconds. -/
def failJob (cfg : QueueConfig) (now : Nat) (error : String)
    (job : MbEnrichmentJob) : MbEnrichmentJob :=
  let newAttempts := job.attempts + 1
  if job.max_attempts ≤ newAttempts then
    { job with
      status := .failed
      attempts := newAttempts
      last_error := some error
      locked_at := none
      locked_by := none }
  else
    let backoffMs :=
      min (cfg.baseBackoffMs * cfg.backoffMultiplier ^ (newAttempts - 1)) cfg.maxBackoffMs
    { job with
      status := .pending
      attempts := newAttempts
      last_error := some error
      run_after := now + backoffMs
      locked_at := none
      locked_by := none }

/-! ## MusicBrainz date precision and membership stints (`sync.ts`) -/

/-- Splits a character list at `-` separators (`String.split('-')` of JS,
implemented on the character list so that proofs can compute with it). -/
def splitOnDashAux : List Char → List Char → List (List Char)
  | [], acc => [acc.reverse]
  | c :: cs, acc =>
    if c = '-' then acc.reverse :: splitOnDashAux cs []
    else splitOnDashAux cs (c :: acc)

/-- Source: `rawDate.split('-')`. -/
def splitOnDash (s : String) : List String :=
  (splitOnDashAux s.data []).map String.mk

/-- Decimal value of a digit character, `none` otherwise. -/
def decDigit (c : Char) : Option Nat :=
  if c.isDigit then some (c.toNat - '0'.toNat) else none

/-- Accumulates the decimal value of a digit string; `none` on a non-digit. -/
def digitsToNatAux : List Char → Nat → Option Nat
  | [], acc => some acc
  | c :: cs, acc =>
    match decDigit c with
    | some d => digitsToNatAux cs (acc * 10 + d)
    | none => none

/-- JS `Number(s)` on the strings occurring as dash-separated MusicBrainz date
components: the empty string converts to 0, a digit string to its value, and
anything else to NaN (`none`). -/
def jsNumberOpt (s : String) : Option Int :=
  match s.data with
  | [] => some 0
  | cs => (digitsToNatAux cs 0).map Int.ofNat

/-- Source: `parseRawDate`: split on `-`; missing or NaN components default to the
start of the period (zero-based month 0, day 1); a falsy input or a NaN year
yields `none` (JS `null`).  The triple is `(year, month, day)` as passed to
`new Date(year, month, day)`. -/
def parseRawDate (rawDate : Option String) : Option (Int × Int × Int) :=
  match rawDate with
  | none => none
  | some r =>
    if r.isEmpty then none
    else
      let parts := (splitOnDash r).map jsNumberOpt
      match parts.head? with
      | none => none
      | some none => none
      | some (some year) =>
        let month : Int :=
          match parts.get? 1 with
          | some (some m) => m - 1
          | _ => 0
        let day : Int :=
          match parts.get? 2 with
          | some (some d) => d
          | _ => 1
        some (year, month, day)

/-- Source: `formatDateForDb`: render the normalized date as `YYYY-MM-DD` (the month
stored zero-based is rendered one-based, as JS `Date`/ISO formatting does). -/
def formatDateForDb (d : Int × Int × Int) : String :=
  toString d.1 ++ "-" ++ toString (d.2.1 + 1) ++ "-" ++ toString d.2.2

/-- Source: `areDatesCompatible`: JS-falsy on either side is compatible; otherwise the
two strings must agree on their first `min length` characters
(`substring(0, minLength)` comparison). -/
def areDatesCompatible (existing incoming : Option String) : Bool :=
  match existing, incoming with
  | some e, some i =>
    if e.isEmpty || i.isEmpty then true
    else
      let minLength := min e.length i.length
      decide (e.data.take minLength = i.data.take minLength)
  | _, _ => true

/-- Source: `shouldRefineDate`: a falsy incoming date never refines; a falsy existing
date is always refined; otherwise the dates must be compatible and the
incoming string strictly longer. -/
def shouldRefineDate (existing incoming : Option String) : Bool :=
  match incoming with
  | none => false
  | some i =>
    if i.isEmpty then false
    else
      match existing with
      | none => true
      | some e =>
        if e.isEmpty then true
        else if ¬ areDatesCompatible existing incoming then false
        else decide (e.length < i.length)

/-- Length of a raw date string, counting the JS-falsy values (null and the
empty string) as length 0. -/
def rawLen : Option String → Nat
  | none => 0
  | some s => s.length

/-- An `artists_groups` membership-stint row. -/
structure StintRow where
  id : Nat
  member_id : Nat
  group_id : Nat
  begin_date : Option String
  end_date : Option String
  begin_raw : Option String
  end_raw : Option String
  ended : Bool
deriving DecidableEq

/-- The `beginDate` / `endDate` / `ended` fields of a MusicBrainz group
membership as consumed by `upsertMembershipPeriod` (undefined normalized to
null). -/
structure MembershipInput where
  beginDate : Option String
  endDate : Option String
  ended : Bool
deriving DecidableEq

/-- Result record of `upsertMembershipPeriod`. -/
structure MembershipUpsertResult where
  inserted : Bool
  updated : Bool
  id : Nat
deriving DecidableEq

/-- Source: `db.update(artists_groups).set(f).where(eq(artists_groups.id, rowId))`:
apply `f` to the rows carrying `rowId`. -/
def updateStintRows (table : List StintRow) (rowId : Nat) (f : StintRow → StintRow) :
    List StintRow :=
  table.map (fun r => if r.id = rowId then f r else r)

/-- Source: `existingPeriods`: the stored stints of this (member, group) pair. -/
def existingPeriodsOf (memberId groupId : Nat) (table : List StintRow) : List StintRow :=
  table.filter (fun p => decide (p.member_id = memberId) && decide (p.group_id = groupId))

/-- Step 1 of `upsertMembershipPeriod`: the exact (raw-begin, raw-end) match. -/
def exactStintMatch (memberId groupId : Nat) (membership : MembershipInput)
    (table : List StintRow) : Option StintRow :=
  (existingPeriodsOf memberId groupId table).find?
    (fun p => decide (p.begin_raw = membership.beginDate) &&
      decide (p.end_raw = membership.endDate))

/-- Step 2 of `upsertMembershipPeriod`: the first stint whose raw dates are
both compatible with the incoming ones. -/
def compatibleStintMatch (memberId groupId : Nat) (membership : MembershipInput)
    (table : List StintRow) : Option StintRow :=
  (existingPeriodsOf memberId groupId table).find?
    (fun p => areDatesCompatible p.begin_raw membership.beginDate &&
      areDatesCompatible p.end_raw membership.endDate)

/-- Source: `upsertMembershipPeriod`: exact raw-date match updates only a differing
`ended`; else the first compatible stint is refined (drizzle `undefined`
fields leave the column untouched); else a new stint row is inserted.
`nextId` models the generated row id. -/
def upsertMembershipPeriod (memberId groupId : Nat) (membership : MembershipInput)
    (table : List StintRow) (nextId : Nat) :
    MembershipUpsertResult × List StintRow × Nat :=
  let beginRaw := membership.beginDate
  let endRaw := membership.endDate
  let beginDate := parseRawDate beginRaw
  let endDate := parseRawDate endRaw
  match exactStintMatch memberId groupId membership table with
  | some exactMatch =>
    if exactMatch.ended ≠ membership.ended then
      (⟨false, true, exactMatch.id⟩,
       updateStintRows table exactMatch.id (fun r => { r with ended := membership.ended }),
       nextId)
    else
      (⟨false, false, exactMatch.id⟩, table, nextId)
  | none =>
    match compatibleStintMatch memberId groupId membership table with
    | some existing =>
      let shouldRefineBegin := shouldRefineDate existing.begin_raw beginRaw
      let shouldRefineEnd := shouldRefineDate existing.end_raw endRaw
      if shouldRefineBegin || shouldRefineEnd || decide (existing.ended ≠ membership.ended) then
        (⟨false, true, existing.id⟩,
         updateStintRows table existing.id (fun r =>
           { r with
             begin_date :=
               if shouldRefineBegin then
                 match beginDate with
                 | some d2 => some (formatDateForDb d2)
                 | none => r.begin_date
               else r.begin_date
             end_date :=
               if shouldRefineEnd then
                 match endDate with
                 | some d2 => some (formatDateForDb d2)
                 | none => r.end_date
               else r.end_date
             begin_raw := if shouldRefineBegin then beginRaw else r.begin_raw
             end_raw := if shouldRefineEnd then endRaw else r.end_raw
             ended := membership.ended }),
         nextId)
      else
        (⟨false, false, existing.id⟩, table, nextId)
    | none =>
      (⟨true, false, nextId⟩,
       table ++ [{ id := nextId, member_id := memberId, group_id := groupId,
                   begin_date := beginDate.map formatDateForDb,
                   end_date := endDate.map formatDateForDb,
                   begin_raw := beginRaw, end_raw := endRaw,
                   ended := membership.ended }],
       nextId + 1)

/-! ## Canonical store: artists, albums, tracks, links, scrobbles
(scrobbles module, `src/unnamed/part_017`).  Tables are lists scanned in
insertion order (`findFirst` = `List.find?`); generated row ids come from the
`nextId` counter; the fire-and-forget artist relationship sync is recorded in
`syncRequests`. -/

/-- The `account_provider` enum of the schema (its only value is `spotify`). -/
inductive Provider where
  | spotify
deriving DecidableEq

/-- An `artists` row (the fields used by the scrobbling core). -/
structure ArtistRow where
  id : Nat
  name : String
  mbid : Option String
deriving DecidableEq

/-- An `albums` row. -/
structure AlbumRow where
  id : Nat
  title : String
  artist_id : Nat
  mbid : Option String
  release_date : Option String
  image_url : Option String
deriving DecidableEq

/-- A `tracks` row. -/
structure TrackRow where
  id : Nat
  title : String
  duration_ms : ℚ
  mbid : Option String
  isrc : Option String
  explicit : Bool
deriving DecidableEq

/-- A `track_artists` link row. -/
structure TrackArtistRow where
  track_id : Nat
  artist_id : Nat
  is_primary : Bool
  order : Nat
  join_phrase : String
deriving DecidableEq

/-- A `track_albums` link row. -/
structure TrackAlbumRow where
  track_id : Nat
  album_id : Nat
deriving DecidableEq

/-- A `scrobbles` row. -/
structure ScrobbleRow where
  user_id : String
  track_id : Nat
  album_id : Option Nat
  played_at : ℚ
  played_duration_ms : ℚ
  skipped : Bool
  provider : Provider
deriving DecidableEq

/-- The `primaryArtist` component of resolved metadata. -/
structure ArtistRef where
  name : String
  mbid : Option String
deriving DecidableEq

/-- One entry of `artistCredits` in resolved metadata. -/
structure ArtistCredit where
  name : String
  mbid : Option String
  isPrimary : Bool
  order : Nat
  joinPhrase : String
deriving DecidableEq

/-- The `album` component of resolved metadata. -/
structure AlbumMeta where
  title : String
  mbid : Option String
  releaseDate : Option String
  imageUrl : Option String
deriving DecidableEq

/-- Source: `ResolvedTrackMetadata`: the output of metadata resolution. -/
structure ResolvedTrackMetadata where
  title : String
  durationMs : ℚ
  isrc : Option String
  mbid : Option String
  explicit : Bool
  primaryArtist : ArtistRef
  artistCredits : List ArtistCredit
  album : Option AlbumMeta
deriving DecidableEq

/-- The database tables touched by the scrobbling core, plus the id counter
and the log of fire-and-forget relationship-sync requests. -/
structure Store where
  artists : List ArtistRow
  albums : List AlbumRow
  tracks : List TrackRow
  track_artists : List TrackArtistRow
  track_albums : List TrackAlbumRow
  scrobbles : List ScrobbleRow
  nextId : Nat
  syncRequests : List String
deriving DecidableEq

/-- Source: `triggerAutoSync`: fires `syncArtistRelationshipsByMbid(mbid)` without
awaiting it (the `artist.sync_relationships` operation).  Modelled as
recording the requested MBID. -/
def triggerAutoSync (mbid : String) (st : Store) : Store :=
  { st with syncRequests := st.syncRequests ++ [mbid] }

/-- Source: `upsertArtist(name, mbid)`: match by MBID, else by exact name (attaching a
newly available MBID and triggering the relationship auto-sync), else insert
(triggering the auto-sync when an MBID is present). -/
def upsertArtist (name : String) (mbid : Option String) (st : Store) : Nat × Store :=
  let byMbid : Option ArtistRow :=
    match mbid with
    | some m => st.artists.find? (fun a => decide (a.mbid = some m))
    | none => none
  match byMbid with
  | some existing => (existing.id, st)
  | none =>
    match st.artists.find? (fun a => decide (a.name = name)) with
    | some existingByName =>
      match mbid, existingByName.mbid with
      | some m, none =>
        let st1 := { st with artists := st.artists.map (fun a =>
          if a.id = existingByName.id then { a with mbid := some m } else a) }
        (existingByName.id, triggerAutoSync m st1)
      | _, _ => (existingByName.id, st)
    | none =>
      let newId := st.nextId
      let st1 := { st with
        nextId := st.nextId + 1,
        artists := st.artists ++ [{ id := newId, name := name, mbid := mbid }] }
      match mbid with
      | some m => (newId, triggerAutoSync m st1)
      | none => (newId, st1)

/-- Source: `upsertAlbum(title, artistId, mbid, releaseDate, imageUrl)`: match by
MBID, else by (title, artist), back-attaching a new MBID, else insert. -/
def upsertAlbum (title : String) (artistId : Nat) (mbid : Option String)
    (releaseDate : Option String) (imageUrl : Option String) (st : Store) : Nat × Store :=
  let byMbid : Option AlbumRow :=
    match mbid with
    | some m => st.albums.find? (fun a => decide (a.mbid = some m))
    | none => none
  match byMbid with
  | some existing => (existing.id, st)
  | none =>
    match st.albums.find? (fun a => decide (a.title = title ∧ a.artist_id = artistId)) with
    | some existingByTitle =>
      match mbid, existingByTitle.mbid with
      | some m, none =>
        (existingByTitle.id,
         { st with albums := st.albums.map (fun a =>
             if a.id = existingByTitle.id then { a with mbid := some m } else a) })
      | _, _ => (existingByTitle.id, st)
    | none =>
      let newId := st.nextId
      let row : AlbumRow :=
        { id := newId, title := title, artist_id := artistId,
          mbid := mbid, release_date := releaseDate, image_url := imageUrl }
      (newId, { st with nextId := st.nextId + 1, albums := st.albums ++ [row] })

/-- Source: `upsertTrack(metadata)`: match by ISRC (back-attaching a new MBID), else
by MBID, else insert. -/
def upsertTrack (metadata : ResolvedTrackMetadata) (st : Store) : Nat × Store :=
  let byIsrc : Option TrackRow :=
    match metadata.isrc with
    | some code => st.tracks.find? (fun t => decide (t.isrc = some code))
    | none => none
  match byIsrc with
  | some existing =>
    match metadata.mbid, existing.mbid with
    | some m, none =>
      (existing.id,
       { st with tracks := st.tracks.map (fun t =>
           if t.id = existing.id then { t with mbid := some m } else t) })
    | _, _ => (existing.id, st)
  | none =>
    let byMbid : Option TrackRow :=
      match metadata.mbid with
      | some m => st.tracks.find? (fun t => decide (t.mbid = some m))
      | none => none
    match byMbid with
    | some existing => (existing.id, st)
    | none =>
      let newId := st.nextId
      let row : TrackRow :=
        { id := newId, title := metadata.title,
          duration_ms := metadata.durationMs, mbid := metadata.mbid,
          isrc := metadata.isrc, explicit := metadata.explicit }
      (newId, { st with nextId := st.nextId + 1, tracks := st.tracks ++ [row] })

/-- One iteration of the `linkTrackArtists` loop: upsert the credit's artist,
then insert the link if absent. -/
def linkOneTrackArtist (trackId : Nat) (credit : ArtistCredit) (st : Store) : Store :=
  let r := upsertArtist credit.name credit.mbid st
  let artistId := r.1
  let st1 := r.2
  match st1.track_artists.find?
      (fun ta => decide (ta.track_id = trackId ∧ ta.artist_id = artistId)) with
  | some _ => st1
  | none =>
    { st1 with track_artists := st1.track_artists ++
        [{ track_id := trackId, artist_id := artistId, is_primary := credit.isPrimary,
           order := credit.order, join_phrase := credit.joinPhrase }] }

/-- Source: `linkTrackArtists(trackId, credits)`. -/
def linkTrackArtists (trackId : Nat) (credits : List ArtistCredit) (st : Store) : Store :=
  credits.foldl (fun s credit => linkOneTrackArtist trackId credit s) st

/-- Source: `linkTrackAlbum(trackId, albumId)`: insert the link if absent. -/
def linkTrackAlbum (trackId albumId : Nat) (st : Store) : Store :=
  match st.track_albums.find?
      (fun ta => decide (ta.track_id = trackId ∧ ta.album_id = albumId)) with
  | some _ => st
  | none =>
    { st with track_albums := st.track_albums ++
        [{ track_id := trackId, album_id := albumId }] }

/-- Source: `DEDUPE_WINDOW_MS` (10 minutes). -/
def DEDUPE_WINDOW_MS : ℚ := 10 * 60 * 1000

/-- Source: `hasExistingScrobbleInWindow`: a scrobble of the same (user, track) with
`played_at` between `playedAt − 10 min` and `playedAt + 10 min` (inclusive). -/
def hasExistingScrobbleInWindow (userId : String) (trackId : Nat) (playedAt : ℚ)
    (st : Store) : Bool :=
  let windowStart := playedAt - DEDUPE_WINDOW_MS
  let windowEnd := playedAt + DEDUPE_WINDOW_MS
  st.scrobbles.any (fun s =>
    decide (s.user_id = userId) && decide (s.track_id = trackId) &&
    decide (windowStart ≤ s.played_at) && decide (s.played_at ≤ windowEnd))

/-- Source: `insert(scrobbles).values(row).onConflictDoNothing` on the unique key
(user_id, track_id, played_at); returns whether a row was inserted. -/
def insertScrobble (row : ScrobbleRow) (st : Store) : Bool × Store :=
  if st.scrobbles.any (fun s =>
      decide (s.user_id = row.user_id) && decide (s.track_id = row.track_id) &&
      decide (s.played_at = row.played_at)) then
    (false, st)
  else
    (true, { st with scrobbles := st.scrobbles ++ [row] })

/-- The album step shared by the persist paths: upsert the primary artist,
upsert the album, link it to the track.  Returns the album id (if any). -/
def linkAlbumOf (trackId : Nat) (metadata : ResolvedTrackMetadata) (st : Store) :
    Option Nat × Store :=
  match metadata.album with
  | some album =>
    let r1 := upsertArtist metadata.primaryArtist.name metadata.primaryArtist.mbid st
    let r2 := upsertAlbum album.title r1.1 album.mbid album.releaseDate album.imageUrl r1.2
    (some r2.1, linkTrackAlbum trackId r2.1 r2.2)
  | none => (none, st)

/-! ## Recently-played reconciler (`processPlayEvents`, `persistScrobble`,
`processAccountScrobbles`) -/

/-- A Spotify recently-played item: the `played_at` timestamp (epoch ms) and
the track duration; the rest of the track payload only feeds metadata
resolution, which is abstracted by the `resolve` oracle. -/
structure RecentlyPlayedItem where
  played_at : ℚ
  track_duration_ms : ℚ
deriving DecidableEq

/-- Source: `ProcessedPlayEvent`. -/
structure ProcessedPlayEvent where
  item : RecentlyPlayedItem
  playedAt : ℚ
  estimatedDurationMs : ℚ
  meetsThreshold : Bool
deriving DecidableEq

/-- Source: `processPlayEvents(items)`: estimate each play's duration as the gap to
the next play (capped at the track duration); the last play counts in full. -/
def processPlayEvents (cfg : ScrobbleConfig) (items : List RecentlyPlayedItem) :
    List ProcessedPlayEvent :=
  items.enum.map (fun p =>
    let playedAt := p.2.played_at
    let trackDurationMs := p.2.track_duration_ms
    let estimatedDurationMs :=
      match items.get? (p.1 + 1) with
      | some next => min trackDurationMs (next.played_at - playedAt)
      | none => trackDurationMs
    { item := p.2, playedAt := playedAt, estimatedDurationMs := estimatedDurationMs,
      meetsThreshold := meetsScrobbleThreshold cfg estimatedDurationMs trackDurationMs })

/-- Source: `persistScrobble(userId, event, metadata)`: upsert the track; inside the
dedupe window only ensure the artist/album links; otherwise link and insert
the scrobble row (conflict-ignoring). -/
def persistScrobble (userId : String) (event : ProcessedPlayEvent)
    (metadata : ResolvedTrackMetadata) (st : Store) : Bool × Store :=
  let r := upsertTrack metadata st
  let trackId := r.1
  let st1 := r.2
  let isDuplicate := hasExistingScrobbleInWindow userId trackId event.playedAt st1
  if isDuplicate then
    let st2 := linkTrackArtists trackId metadata.artistCredits st1
    let st3 := (linkAlbumOf trackId metadata st2).2
    (false, st3)
  else
    let st2 := linkTrackArtists trackId metadata.artistCredits st1
    let r3 := linkAlbumOf trackId metadata st2
    insertScrobble
      { user_id := userId, track_id := trackId, album_id := r3.1,
        played_at := event.playedAt, played_duration_ms := event.estimatedDurationMs,
        skipped := false, provider := .spotify } r3.2

/-- Source: `persistScrobbleFromMetadata(userId, playedAt, durationMs, metadata,
skipped)`: the currently-playing persist path (no 10-minute dedupe window,
conflict-ignoring insert). -/
def persistScrobbleFromMetadata (userId : String) (playedAt durationMs : ℚ)
    (metadata : ResolvedTrackMetadata) (skipped : Bool) (st : Store) : Bool × Store :=
  let r := upsertTrack metadata st
  let trackId := r.1
  let st1 := r.2
  let st2 := linkTrackArtists trackId metadata.artistCredits st1
  let r3 := linkAlbumOf trackId metadata st2
  insertScrobble
    { user_id := userId, track_id := trackId, album_id := r3.1,
      played_at := playedAt, played_duration_ms := durationMs,
      skipped := skipped, provider := .spotify } r3.2

/-- Reconciler state: the store plus the `scrobble_state` cursor of this
(user, provider). -/
structure ReconcilerState where
  store : Store
  cursor : Option ℚ
deriving DecidableEq

/-- The latest-played-at update of the loop body: `if (!latestPlayedAt ||
event.playedAt > latestPlayedAt) latestPlayedAt = event.playedAt`. -/
def latestStep (l : Option ℚ) (t : ℚ) : Option ℚ :=
  match l with
  | none => some t
  | some l0 => if l0 < t then some t else some l0

/-- One iteration of the play loop in `processAccountScrobbles`: track the
latest `played_at` seen (threshold-independent), then persist the play when
it meets the threshold. -/
def scrobbleLoopStep (resolve : ProcessedPlayEvent → ResolvedTrackMetadata)
    (userId : String) (acc : Option ℚ × Store) (event : ProcessedPlayEvent) :
    Option ℚ × Store :=
  let latest := latestStep acc.1 event.playedAt
  if event.meetsThreshold then
    (latest, (persistScrobble userId event (resolve event) acc.2).2)
  else
    (latest, acc.2)

/-- The per-account body of `processAccountScrobbles` after the fetch:
process the plays, persist the eligible ones, and advance the cursor to the
latest `played_at` observed in the batch.  Metadata resolution (network and
cache) is abstracted by the `resolve` oracle. -/
def processAccountScrobbles (cfg : ScrobbleConfig)
    (resolve : ProcessedPlayEvent → ResolvedTrackMetadata) (userId : String)
    (plays : List RecentlyPlayedItem) (rs : ReconcilerState) : ReconcilerState :=
  if plays.isEmpty then rs
  else
    let events := processPlayEvents cfg plays
    let r := events.foldl (scrobbleLoopStep resolve userId) (none, rs.store)
    match r.1 with
    | some t => { store := r.2, cursor := some t }
    | none => { store := r.2, cursor := rs.cursor }

/-! ## Playback session engine (`src/unnamed/part_018`) -/

/-- Source: `SpotifyTrackInput`: the metadata snapshot stored on a session.  The
artist/album subobjects only feed metadata resolution, which is abstracted by
the `resolve` oracle. -/
structure SpotifyTrackInput where
  id : String
  name : String
  duration_ms : ℚ
  explicit : Bool
  isrc : Option String
deriving DecidableEq

/-- Source: `PLAYBACK_CONFIG` (plus the shared `SCROBBLE_CONFIG`). -/
structure PlaybackConfig where
  wrapMinToleranceMs : ℚ
  wrapThresholdPercent : ℚ
  maxDeltaMs : ℚ
  staleSessionMs : ℚ
  skipThresholdPercent : ℚ
  endMarginMs : ℚ
  scrobble : ScrobbleConfig
deriving DecidableEq

/-- The defaults of `PLAYBACK_CONFIG`. -/
def defaultPlaybackConfig : PlaybackConfig :=
  { wrapMinToleranceMs := 15000, wrapThresholdPercent := 35, maxDeltaMs := 30000,
    staleSessionMs := 1800000, skipThresholdPercent := 90, endMarginMs := 15000,
    scrobble := defaultScrobbleConfig }

/-- A `playback_sessions` row. -/
structure PlaybackSession where
  user_id : String
  provider : Provider
  track_uri : String
  started_at : ℚ
  last_seen_at : ℚ
  last_progress_ms : ℚ
  accumulated_ms : ℚ
  is_playing : Bool
  track_duration_ms : Option ℚ
  track_metadata : Option SpotifyTrackInput
  scrobbled : Bool
deriving DecidableEq

/-- The state the playback engine acts on: the store plus the (at most one)
session row of this (user, provider). -/
structure PlaybackState where
  store : Store
  session : Option PlaybackSession
deriving DecidableEq

/-- Source: `getEffectiveAccumulatedMs`: within `endMarginMs` of the end, the play
counts as the full track duration. -/
def getEffectiveAccumulatedMs (cfg : PlaybackConfig) (accumulatedMs trackDurationMs : ℚ) : ℚ :=
  if trackDurationMs ≤ accumulatedMs + cfg.endMarginMs then trackDurationMs
  else accumulatedMs

/-- Source: `isSkipped`: effective play time below `skipThresholdPercent` of the
track. -/
def isSkipped (cfg : PlaybackConfig) (accumulatedMs trackDurationMs : ℚ) : Bool :=
  let effectiveMs := getEffectiveAccumulatedMs cfg accumulatedMs trackDurationMs
  decide (effectiveMs < trackDurationMs * cfg.skipThresholdPercent / 100)

/-- Source: `finalizeSession(userId, session)`: no-ops when already scrobbled, when
the metadata snapshot is missing, when the threshold fails, or when a
scrobble of (user, provider=spotify) lies within ±5 s of `started_at`;
otherwise resolves metadata and persists one scrobble at `started_at` with
the effective duration and the skip flag.  Does not touch the session row. -/
def finalizeSession (cfg : PlaybackConfig)
    (resolve : SpotifyTrackInput → ResolvedTrackMetadata) (userId : String)
    (session : PlaybackSession) (ps : PlaybackState) : Bool × PlaybackState :=
  if session.scrobbled then (false, ps)
  else
    match session.track_metadata with
    | none => (false, ps)
    | some tm =>
      let trackDurationMs := session.track_duration_ms.getD tm.duration_ms
      if ¬ meetsScrobbleThreshold cfg.scrobble session.accumulated_ms trackDurationMs then
        (false, ps)
      else if ps.store.scrobbles.any (fun s =>
          decide (s.user_id = userId) && decide (s.provider = Provider.spotify) &&
          decide (session.started_at - 5000 ≤ s.played_at) &&
          decide (s.played_at ≤ session.started_at + 5000)) then
        (false, ps)
      else
        let metadata := resolve tm
        let effectiveAccumulatedMs :=
          getEffectiveAccumulatedMs cfg session.accumulated_ms trackDurationMs
        let skipped := isSkipped cfg session.accumulated_ms trackDurationMs
        let r := persistScrobbleFromMetadata userId session.started_at
          effectiveAccumulatedMs metadata skipped ps.store
        (r.1, { ps with store := r.2 })

/-- Source: `isSessionStale`: idle longer than `staleSessionMs`. -/
def isSessionStale (cfg : PlaybackConfig) (session : PlaybackSession) (now : ℚ) : Bool :=
  decide (cfg.staleSessionMs < now - session.last_seen_at)

/-- The track object of a currently-playing poll. -/
structure CurrentTrack where
  uri : String
  id : String
  name : String
  duration_ms : ℚ
  explicit : Bool
  isrc : Option String
deriving DecidableEq

/-- A currently-playing response (the poll already returns `none` for 204 /
non-track payloads; `item` may still be null). -/
structure CurrentlyPlaying where
  item : Option CurrentTrack
  progress_ms : Option ℚ
  is_playing : Bool
deriving DecidableEq

/-- The result record of `processCurrentlyPlaying`. -/
structure StepResult where
  scrobbled : Bool
  sessionUpdated : Bool
deriving DecidableEq

/-- The metadata snapshot extracted from a polled track. -/
def trackInputOf (track : CurrentTrack) : SpotifyTrackInput :=
  { id := track.id, name := track.name, duration_ms := track.duration_ms,
    explicit := track.explicit, isrc := track.isrc }

/-- The fresh-session literal written at the three session-creation sites of
`processCurrentlyPlaying` (accumulated 0, started now, not scrobbled). -/
def freshPlaybackSession (userId trackUri : String) (now progressMs : ℚ)
    (isPlaying : Bool) (trackDurationMs : ℚ) (trackMetadata : SpotifyTrackInput) :
    PlaybackSession :=
  { user_id := userId, provider := .spotify, track_uri := trackUri, started_at := now,
    last_seen_at := now, last_progress_ms := progressMs, accumulated_ms := 0,
    is_playing := isPlaying, track_duration_ms := some trackDurationMs,
    track_metadata := some trackMetadata, scrobbled := false }

/-- The continued-session row written by the same-uri branch of
`processCurrentlyPlaying`: position fields refreshed, `started_at`, the
metadata snapshot and the `scrobbled` flag carried over. -/
def continuedSession (userId : String) (session : PlaybackSession) (trackUri : String)
    (now progressMs acc : ℚ) (isPlaying : Bool) (trackDurationMs : ℚ) : PlaybackSession :=
  { user_id := userId, provider := .spotify, track_uri := trackUri,
    started_at := session.started_at, last_seen_at := now,
    last_progress_ms := progressMs, accumulated_ms := acc,
    is_playing := isPlaying, track_duration_ms := some trackDurationMs,
    track_metadata := session.track_metadata, scrobbled := session.scrobbled }

/-- Source: `processCurrentlyPlaying`: one poll of the playback state machine
(the token-refresh preamble and network errors are outside the model). -/
def processCurrentlyPlaying (cfg : PlaybackConfig)
    (resolve : SpotifyTrackInput → ResolvedTrackMetadata) (userId : String)
    (currentlyPlaying : Option CurrentlyPlaying) (now : ℚ) (ps : PlaybackState) :
    StepResult × PlaybackState :=
  let noTrack : StepResult × PlaybackState :=
    match ps.session with
    | some session =>
      if isSessionStale cfg session now then
        let r := finalizeSession cfg resolve userId session ps
        ({ scrobbled := r.1, sessionUpdated := false }, { r.2 with session := none })
      else
        ({ scrobbled := false, sessionUpdated := false }, ps)
    | none => ({ scrobbled := false, sessionUpdated := false }, ps)
  match currentlyPlaying with
  | none => noTrack
  | some cp =>
    match cp.item with
    | none => noTrack
    | some track =>
      let trackUri := track.uri
      let progressMs := cp.progress_ms.getD 0
      let isPlaying := cp.is_playing
      let trackMetadata := trackInputOf track
      match ps.session with
      | none =>
        ({ scrobbled := false, sessionUpdated := true },
         { ps with session := some (freshPlaybackSession userId trackUri now progressMs
             isPlaying track.duration_ms trackMetadata) })
      | some session =>
        if session.track_uri = trackUri then
          let delta := progressMs - session.last_progress_ms
          let wrapThresholdMs := max cfg.wrapMinToleranceMs
            (track.duration_ms * cfg.wrapThresholdPercent / 100)
          if session.is_playing ∧ delta < -wrapThresholdMs then
            let r := finalizeSession cfg resolve userId session ps
            ({ scrobbled := r.1, sessionUpdated := true },
             { r.2 with session := some (freshPlaybackSession userId trackUri now
                 progressMs isPlaying track.duration_ms trackMetadata) })
          else
            let newAccumulated :=
              if session.is_playing then
                if 0 < delta ∧ delta ≤ cfg.maxDeltaMs then session.accumulated_ms + delta
                else if cfg.maxDeltaMs < delta then session.accumulated_ms + cfg.maxDeltaMs
                else session.accumulated_ms
              else session.accumulated_ms
            ({ scrobbled := false, sessionUpdated := true },
             { ps with session := some (continuedSession userId session trackUri now
                 progressMs newAccumulated isPlaying track.duration_ms) })
        else
          let r :=
            if session.scrobbled then (false, ps)
            else finalizeSession cfg resolve userId session ps
          ({ scrobbled := r.1, sessionUpdated := true },
           { r.2 with session := some (freshPlaybackSession userId trackUri now
               progressMs isPlaying track.duration_ms trackMetadata) })

/-- Specification predicate: some `track_artists` row links `trackId` to an
existing artist row. -/
def trackArtistLinkExists (trackId : Nat) (st : Store) : Prop :=
  ∃ row ∈ st.track_artists, row.track_id = trackId ∧
    ∃ a ∈ st.artists, a.id = row.artist_id

/-- Specification predicate: some `track_albums` row links `trackId` to an
existing album row. -/
def trackAlbumLinkExists (trackId : Nat) (st : Store) : Prop :=
  ∃ row ∈ st.track_albums, row.track_id = trackId ∧
    ∃ b ∈ st.albums, b.id = row.album_id

/-- C1: the scrobble-threshold predicate holds iff the play reaches
`min_play_seconds × 1000` ms or `duration × min_play_percent / 100` ms
(defaults 30 s and 50 %); in particular a play one millisecond short of the
absolute minimum meets the threshold iff it reaches the percentage bound. -/
theorem meetsScrobbleThreshold_spec :
    (∀ (cfg : ScrobbleConfig) (p d : ℚ),
      meetsScrobbleThreshold cfg p d = true ↔
        cfg.minPlaySeconds * 1000 ≤ p ∨ d * cfg.minPlayPercent / 100 ≤ p) ∧
    (∀ d : ℚ,
      meetsScrobbleThreshold defaultScrobbleConfig
          (defaultScrobbleConfig.minPlaySeconds * 1000 - 1) d = true ↔
        d * defaultScrobbleConfig.minPlayPercent / 100 ≤
          defaultScrobbleConfig.minPlaySeconds * 1000 - 1) := by
  constructor
  · intro cfg p d
    simp [meetsScrobbleThreshold]
  · intro d
    simp only [meetsScrobbleThreshold, defaultScrobbleConfig, Bool.or_eq_true,
      decide_eq_true_eq]
    constructor
    · rintro (h | h)
      · norm_num at h
      · exact h
    · intro h
      exact Or.inr h

/-- C6: failing a job increments `attempts`; at `max_attempts` it becomes
terminally failed, otherwise it returns to pending with the lock cleared, the
error recorded, and `run_after = now + min(base · multiplier^(attempts−1), cap)`;
with the default configuration the first retry delay is exactly the base, and
no retry delay ever exceeds the cap. -/
theorem failJob_spec (cfg : QueueConfig) (now : Nat) (err : String)
    (job : MbEnrichmentJob) :
    (failJob cfg now err job).attempts = job.attempts + 1 ∧
    (job.max_attempts ≤ job.attempts + 1 →
      (failJob cfg now err job).status = JobStatus.failed) ∧
    (job.attempts + 1 < job.max_attempts →
      (failJob cfg now err job).status = JobStatus.pending ∧
      (failJob cfg now err job).locked_at = none ∧
      (failJob cfg now err job).locked_by = none ∧
      (failJob cfg now err job).last_error = some err ∧
      (failJob cfg now err job).run_after =
        now + min (cfg.baseBackoffMs * cfg.backoffMultiplier ^ job.attempts) cfg.maxBackoffMs ∧
      (failJob cfg now err job).run_after ≤ now + cfg.maxBackoffMs) ∧
    (job.attempts = 0 → job.attempts + 1 < job.max_attempts → cfg = defaultQueueConfig →
      (failJob cfg now err job).run_after = now + cfg.baseBackoffMs) := by
  by_cases hc : job.max_attempts ≤ job.attempts + 1
  · refine ⟨?_, ?_, ?_, ?_⟩
    · simp [failJob, hc]
    · intro _
      simp [failJob, hc]
    · intro hlt
      omega
    · intro h0 hlt hdef
      omega
  · refine ⟨?_, ?_, ?_, ?_⟩
    · simp [failJob, hc]
    · intro hmax
      omega
    · intro hlt
      refine ⟨?_, ?_, ?_, ?_, ?_, ?_⟩
      · simp [failJob, hc]
      · simp [failJob, hc]
      · simp [failJob, hc]
      · simp [failJob, hc]
      · simp [failJob, hc]
      · simp only [failJob, hc, if_false]
        exact Nat.add_le_add_left (min_le_right _ _) now
    · intro h0 hlt hdef
      subst hdef
      have h1 : ¬ job.max_attempts ≤ 1 := by omega
      simp [failJob, h0, defaultQueueConfig, h1]

/-- Witness for C6 at a concrete job: one prior attempt out of three, failed at
time 1000 with the default configuration, retries after the doubled base. -/
theorem failJob_spec_witness :
    (failJob defaultQueueConfig 1000 "boom"
        { status := .running, attempts := 1, max_attempts := 3, run_after := 0,
          locked_at := some 5, locked_by := some "w1", last_error := none }).run_after =
      1000 + min (defaultQueueConfig.baseBackoffMs * defaultQueueConfig.backoffMultiplier ^ 1)
        defaultQueueConfig.maxBackoffMs :=
  ((failJob_spec defaultQueueConfig 1000 "boom"
      { status := .running, attempts := 1, max_attempts := 3, run_after := 0,
        locked_at := some 5, locked_by := some "w1", last_error := none }).2.2.1
      (by decide)).2.2.2.2.1

/-- A non-falsy string has positive length. -/
theorem length_pos_of_not_isEmpty {s : String} (h : s.isEmpty = false) : 0 < s.length := by
  cases s with
  | mk data =>
    cases data with
    | nil => exact absurd h (by decide)
    | cons c cs => simp [String.length]

/-- Source: `shouldRefineDate` is exactly "compatible and strictly longer", where the
JS-falsy raw values count as length 0. -/
theorem shouldRefineDate_eq (e i : Option String) :
    shouldRefineDate e i = (areDatesCompatible e i && decide (rawLen e < rawLen i)) := by
  cases i with
  | none =>
    cases e with
    | none => rfl
    | some es => simp [shouldRefineDate, areDatesCompatible, rawLen]
  | some is =>
    by_cases hi : is.isEmpty
    · have hie : is = "" := (String.isEmpty_iff is).mp hi
      subst hie
      have h0 : ("" : String).isEmpty = true := rfl
      cases e with
      | none => simp [shouldRefineDate, areDatesCompatible, rawLen, h0]
      | some es => simp [shouldRefineDate, areDatesCompatible, rawLen, h0]
    · have hi2 : is.isEmpty = false := by
        cases hv : is.isEmpty
        · rfl
        · exact absurd hv hi
      have hp : 0 < is.length := length_pos_of_not_isEmpty hi2
      cases e with
      | none => simp [shouldRefineDate, areDatesCompatible, rawLen, hi2, hp]
      | some es =>
        by_cases he : es.isEmpty
        · have hee : es = "" := (String.isEmpty_iff es).mp he
          subst hee
          simp [shouldRefineDate, areDatesCompatible, rawLen, hi2, hp]
        · have he2 : es.isEmpty = false := by
            cases hv : es.isEmpty
            · rfl
            · exact absurd hv he
          by_cases hc : areDatesCompatible (some es) (some is) = true
          · simp [shouldRefineDate, he2, hi2, hc, rawLen]
          · have hc2 : areDatesCompatible (some es) (some is) = false := by
              cases hv : areDatesCompatible (some es) (some is)
              · rfl
              · exact absurd hv hc
            simp [shouldRefineDate, he2, hi2, hc2, rawLen]

/-- C5 counterexample: with stored raw-begin null and incoming raw-begin
`"abcd"` — compatible (null is compatible with anything) and strictly longer
than the stored value — the code replaces the stored raw date but leaves the
stored normalized date untouched, because `"abcd"` does not parse as a date;
the claim requires raw and normalized dates to be replaced together exactly
when the incoming string is strictly longer. -/
theorem upsertMembershipPeriod_counterexample :
    upsertMembershipPeriod 1 2 { beginDate := some "abcd", endDate := none, ended := false }
        [{ id := 0, member_id := 1, group_id := 2, begin_date := none, end_date := none,
           begin_raw := none, end_raw := none, ended := false }] 5 =
      (⟨false, true, 0⟩,
       [{ id := 0, member_id := 1, group_id := 2, begin_date := none, end_date := none,
          begin_raw := some "abcd", end_raw := none, ended := false }], 5) ∧
    rawLen (none : Option String) < rawLen (some "abcd") := by
  constructor
  · decide
  · decide

/-- C5 (amended): a date refines a compatible stored date exactly when the
incoming string is strictly longer (JS-falsy raw values count as length 0);
an exact raw-date match updates only a differing `ended` flag; on the first
compatible stint, when some refinement applies or `ended` differs, each raw
date is replaced exactly when strictly longer, the normalized date is
replaced exactly when the incoming string is strictly longer **and** parses
as a date, and `ended` is overwritten; otherwise nothing changes; with no
exact or compatible stint a new stint row is inserted. -/
theorem upsertMembershipPeriod_spec (memberId groupId : Nat)
    (membership : MembershipInput) (table : List StintRow) (nextId : Nat) :
    (∀ e i, shouldRefineDate e i =
      (areDatesCompatible e i && decide (rawLen e < rawLen i))) ∧
    (∀ p, exactStintMatch memberId groupId membership table = some p →
      (p.ended ≠ membership.ended →
        upsertMembershipPeriod memberId groupId membership table nextId =
          (⟨false, true, p.id⟩,
           updateStintRows table p.id (fun r => { r with ended := membership.ended }),
           nextId)) ∧
      (p.ended = membership.ended →
        upsertMembershipPeriod memberId groupId membership table nextId =
          (⟨false, false, p.id⟩, table, nextId))) ∧
    (∀ q, exactStintMatch memberId groupId membership table = none →
      compatibleStintMatch memberId groupId membership table = some q →
      ((rawLen q.begin_raw < rawLen membership.beginDate ∨
        rawLen q.end_raw < rawLen membership.endDate ∨
        q.ended ≠ membership.ended) →
        upsertMembershipPeriod memberId groupId membership table nextId =
          (⟨false, true, q.id⟩,
           updateStintRows table q.id (fun r =>
             { r with
               begin_date :=
                 if rawLen q.begin_raw < rawLen membership.beginDate then
                   match parseRawDate membership.beginDate with
                   | some d2 => some (formatDateForDb d2)
                   | none => r.begin_date
                 else r.begin_date
               end_date :=
                 if rawLen q.end_raw < rawLen membership.endDate then
                   match parseRawDate membership.endDate with
                   | some d2 => some (formatDateForDb d2)
                   | none => r.end_date
                 else r.end_date
               begin_raw :=
                 if rawLen q.begin_raw < rawLen membership.beginDate then
                   membership.beginDate
                 else r.begin_raw
               end_raw :=
                 if rawLen q.end_raw < rawLen membership.endDate then
                   membership.endDate
                 else r.end_raw
               ended := membership.ended }),
           nextId)) ∧
      (¬ (rawLen q.begin_raw < rawLen membership.beginDate ∨
          rawLen q.end_raw < rawLen membership.endDate ∨
          q.ended ≠ membership.ended) →
        upsertMembershipPeriod memberId groupId membership table nextId =
          (⟨false, false, q.id⟩, table, nextId))) ∧
    (exactStintMatch memberId groupId membership table = none →
      compatibleStintMatch memberId groupId membership table = none →
      upsertMembershipPeriod memberId groupId membership table nextId =
        (⟨true, false, nextId⟩,
         table ++ [{ id := nextId, member_id := memberId, group_id := groupId,
                     begin_date := (parseRawDate membership.beginDate).map formatDateForDb,
                     end_date := (parseRawDate membership.endDate).map formatDateForDb,
                     begin_raw := membership.beginDate, end_raw := membership.endDate,
                     ended := membership.ended }],
         nextId + 1)) := by
  refine ⟨shouldRefineDate_eq, ?_, ?_, ?_⟩
  · intro p hp
    constructor
    · intro hne
      simp only [upsertMembershipPeriod, hp]
      rw [if_pos hne]
    · intro heq
      simp only [upsertMembershipPeriod, hp]
      rw [if_neg (by simp [heq])]
  · intro q hex hcq
    have hqpred := List.find?_some hcq
    rw [Bool.and_eq_true] at hqpred
    have hb := hqpred.1
    have he := hqpred.2
    constructor
    · intro hfire
      simp only [upsertMembershipPeriod, hex, hcq]
      rw [if_pos (by
        simp only [shouldRefineDate_eq, hb, he, Bool.true_and, Bool.or_eq_true,
          decide_eq_true_eq]
        exact or_assoc.mpr hfire)]
      simp only [shouldRefineDate_eq, hb, he, Bool.true_and, decide_eq_true_eq]
    · intro hfire
      simp only [upsertMembershipPeriod, hex, hcq]
      rw [if_neg (by
        simp only [shouldRefineDate_eq, hb, he, Bool.true_and, Bool.or_eq_true,
          decide_eq_true_eq]
        exact fun hx => hfire (or_assoc.mp hx))]
  · intro hex hcq
    simp only [upsertMembershipPeriod, hex, hcq]

/-- Witness for C5 at a concrete input: an exact raw-date match whose `ended`
flag differs is updated in place. -/
theorem upsertMembershipPeriod_spec_witness :
    upsertMembershipPeriod 1 2 { beginDate := some "1999", endDate := none, ended := false }
        [{ id := 4, member_id := 1, group_id := 2, begin_date := some "1999-1-1",
           end_date := none, begin_raw := some "1999", end_raw := none, ended := true }] 7 =
      (⟨false, true, 4⟩,
       [{ id := 4, member_id := 1, group_id := 2, begin_date := some "1999-1-1",
          end_date := none, begin_raw := some "1999", end_raw := none, ended := false }], 7) :=
  Eq.trans
    (((upsertMembershipPeriod_spec 1 2
        { beginDate := some "1999", endDate := none, ended := false }
        [{ id := 4, member_id := 1, group_id := 2, begin_date := some "1999-1-1",
           end_date := none, begin_raw := some "1999", end_raw := none, ended := true }]
        7).2.1
      { id := 4, member_id := 1, group_id := 2, begin_date := some "1999-1-1",
        end_date := none, begin_raw := some "1999", end_raw := none, ended := true }
      (by decide)).1 (by decide))
    (by decide)

/-- The provider enum has a single value. -/
theorem provider_eq_spotify (p : Provider) : p = Provider.spotify := by
  cases p
  rfl

/-- C10: `finalizeSession` never modifies or deletes the playback session
row: whether or not a scrobble was inserted, the session component of the
state after the call — hence every field of the `playback_sessions` row,
including `scrobbled` — is exactly the one before the call. -/
theorem finalizeSession_frame (cfg : PlaybackConfig)
    (resolve : SpotifyTrackInput → ResolvedTrackMetadata) (userId : String)
    (session : PlaybackSession) (ps : PlaybackState) :
    ((finalizeSession cfg resolve userId session ps).2).session = ps.session := by
  simp only [finalizeSession]
  split
  · rfl
  · split
    · rfl
    · split
      · rfl
      · split
        · rfl
        · rfl

/-- C9: when the artist matched by exact name (no MBID match) has no stored
MBID and one is supplied, the MBID is attached to that row and the
`artist.sync_relationships` relationship sync is emitted fire-and-forget; the
same emission happens when a new artist is created with an MBID. -/
theorem upsertArtist_autoSync (name m : String) (st : Store) :
    (∀ a, st.artists.find? (fun r => decide (r.mbid = some m)) = none →
      st.artists.find? (fun r => decide (r.name = name)) = some a →
      a.mbid = none →
      (upsertArtist name (some m) st).1 = a.id ∧
      ((upsertArtist name (some m) st).2).artists =
        st.artists.map (fun r => if r.id = a.id then { r with mbid := some m } else r) ∧
      ((upsertArtist name (some m) st).2).syncRequests = st.syncRequests ++ [m]) ∧
    (st.artists.find? (fun r => decide (r.mbid = some m)) = none →
      st.artists.find? (fun r => decide (r.name = name)) = none →
      (upsertArtist name (some m) st).1 = st.nextId ∧
      ((upsertArtist name (some m) st).2).artists =
        st.artists ++ [{ id := st.nextId, name := name, mbid := some m }] ∧
      ((upsertArtist name (some m) st).2).syncRequests = st.syncRequests ++ [m]) := by
  constructor
  · intro a hmb hname hnone
    simp only [upsertArtist, hmb, hname, hnone, triggerAutoSync]
    exact ⟨trivial, trivial, trivial⟩
  · intro hmb hname
    simp only [upsertArtist, hmb, hname, triggerAutoSync]
    exact ⟨trivial, trivial, trivial⟩

/-- Witness for C9: attaching a newly discovered MBID to an existing
name-matched artist updates the row and logs the relationship sync. -/
theorem upsertArtist_autoSync_witness :
    ((upsertArtist "Radiohead" (some "mb1")
        { artists := [{ id := 0, name := "Radiohead", mbid := none }], albums := [],
          tracks := [], track_artists := [], track_albums := [], scrobbles := [],
          nextId := 1, syncRequests := [] }).2).artists =
      [{ id := 0, name := "Radiohead", mbid := some "mb1" }] ∧
    ((upsertArtist "Radiohead" (some "mb1")
        { artists := [{ id := 0, name := "Radiohead", mbid := none }], albums := [],
          tracks := [], track_artists := [], track_albums := [], scrobbles := [],
          nextId := 1, syncRequests := [] }).2).syncRequests = ["mb1"] := by
  have h := (upsertArtist_autoSync "Radiohead" "mb1"
      { artists := [{ id := 0, name := "Radiohead", mbid := none }], albums := [],
        tracks := [], track_artists := [], track_albums := [], scrobbles := [],
        nextId := 1, syncRequests := [] }).1
    { id := 0, name := "Radiohead", mbid := none }
    (by decide) (by decide) rfl
  exact ⟨h.2.1.trans (by decide), h.2.2⟩

/-- Source: `upsertArtist` does not touch the scrobbles table. -/
theorem upsertArtist_scrobbles (name : String) (mbid : Option String) (st : Store) :
    ((upsertArtist name mbid st).2).scrobbles = st.scrobbles := by
  simp only [upsertArtist, triggerAutoSync]
  split
  · rfl
  · split
    · split <;> rfl
    · split <;> rfl

/-- Source: `upsertAlbum` does not touch the scrobbles table. -/
theorem upsertAlbum_scrobbles (title : String) (artistId : Nat) (mbid : Option String)
    (releaseDate imageUrl : Option String) (st : Store) :
    ((upsertAlbum title artistId mbid releaseDate imageUrl st).2).scrobbles = st.scrobbles := by
  simp only [upsertAlbum]
  split
  · rfl
  · split
    · split <;> rfl
    · rfl

/-- Source: `upsertTrack` does not touch the scrobbles table. -/
theorem upsertTrack_scrobbles (metadata : ResolvedTrackMetadata) (st : Store) :
    ((upsertTrack metadata st).2).scrobbles = st.scrobbles := by
  simp only [upsertTrack]
  split
  · split <;> rfl
  · split
    · rfl
    · rfl

/-- One `linkTrackArtists` iteration does not touch the scrobbles table. -/
theorem linkOneTrackArtist_scrobbles (trackId : Nat) (credit : ArtistCredit) (st : Store) :
    (linkOneTrackArtist trackId credit st).scrobbles = st.scrobbles := by
  simp only [linkOneTrackArtist]
  split
  · exact upsertArtist_scrobbles _ _ _
  · exact upsertArtist_scrobbles _ _ _

/-- Source: `linkTrackArtists` does not touch the scrobbles table. -/
theorem linkTrackArtists_scrobbles (trackId : Nat) (credits : List ArtistCredit) (st : Store) :
    (linkTrackArtists trackId credits st).scrobbles = st.scrobbles := by
  induction credits generalizing st with
  | nil => rfl
  | cons c cs ih =>
    have h1 := ih (linkOneTrackArtist trackId c st)
    simp only [linkTrackArtists, List.foldl_cons] at h1 ⊢
    exact h1.trans (linkOneTrackArtist_scrobbles _ _ _)

/-- Source: `linkTrackAlbum` does not touch the scrobbles table. -/
theorem linkTrackAlbum_scrobbles (trackId albumId : Nat) (st : Store) :
    (linkTrackAlbum trackId albumId st).scrobbles = st.scrobbles := by
  simp only [linkTrackAlbum]
  split <;> rfl

/-- The album step does not touch the scrobbles table. -/
theorem linkAlbumOf_scrobbles (trackId : Nat) (metadata : ResolvedTrackMetadata) (st : Store) :
    ((linkAlbumOf trackId metadata st).2).scrobbles = st.scrobbles := by
  simp only [linkAlbumOf]
  split
  · exact (linkTrackAlbum_scrobbles _ _ _).trans
      ((upsertAlbum_scrobbles _ _ _ _ _ _).trans (upsertArtist_scrobbles _ _ _))
  · rfl

/-- A conflict-free `insertScrobble` appends the row and reports success. -/
theorem insertScrobble_of_no_conflict (row : ScrobbleRow) (st : Store)
    (h : ∀ s ∈ st.scrobbles,
      ¬ (s.user_id = row.user_id ∧ s.track_id = row.track_id ∧ s.played_at = row.played_at)) :
    insertScrobble row st = (true, { st with scrobbles := st.scrobbles ++ [row] }) := by
  simp only [insertScrobble]
  rw [if_neg]
  intro hany
  rw [List.any_eq_true] at hany
  obtain ⟨s, hs, hp⟩ := hany
  simp only [Bool.and_eq_true, decide_eq_true_eq] at hp
  exact h s hs ⟨hp.1.1, hp.1.2, hp.2⟩

/-- Source: `persistScrobbleFromMetadata` on a store with no (user, played_at)
conflict inserts exactly one scrobble row carrying the given timestamp,
duration and skip flag. -/
theorem persistScrobbleFromMetadata_insert (userId : String) (playedAt durationMs : ℚ)
    (metadata : ResolvedTrackMetadata) (skipped : Bool) (st : Store)
    (hnc : ∀ s ∈ st.scrobbles, s.user_id = userId → s.played_at ≠ playedAt) :
    (persistScrobbleFromMetadata userId playedAt durationMs metadata skipped st).1 = true ∧
    ∃ tid aid,
      ((persistScrobbleFromMetadata userId playedAt durationMs metadata skipped st).2).scrobbles =
        st.scrobbles ++
          [{ user_id := userId, track_id := tid, album_id := aid,
             played_at := playedAt, played_duration_ms := durationMs,
             skipped := skipped, provider := .spotify }] := by
  have hpres : ((linkAlbumOf (upsertTrack metadata st).1 metadata
      (linkTrackArtists (upsertTrack metadata st).1 metadata.artistCredits
        (upsertTrack metadata st).2)).2).scrobbles = st.scrobbles := by
    rw [linkAlbumOf_scrobbles, linkTrackArtists_scrobbles, upsertTrack_scrobbles]
  have hins := insertScrobble_of_no_conflict
    { user_id := userId, track_id := (upsertTrack metadata st).1,
      album_id := (linkAlbumOf (upsertTrack metadata st).1 metadata
        (linkTrackArtists (upsertTrack metadata st).1 metadata.artistCredits
          (upsertTrack metadata st).2)).1,
      played_at := playedAt, played_duration_ms := durationMs,
      skipped := skipped, provider := .spotify }
    ((linkAlbumOf (upsertTrack metadata st).1 metadata
      (linkTrackArtists (upsertTrack metadata st).1 metadata.artistCredits
        (upsertTrack metadata st).2)).2)
    (by
      rw [hpres]
      intro s hs hcon
      exact hnc s hs hcon.1 hcon.2.2)
  simp only [persistScrobbleFromMetadata]
  rw [hins]
  constructor
  · rfl
  · refine ⟨(upsertTrack metadata st).1,
      (linkAlbumOf (upsertTrack metadata st).1 metadata
        (linkTrackArtists (upsertTrack metadata st).1 metadata.artistCredits
          (upsertTrack metadata st).2)).1, ?_⟩
    simp [hpres]

/-- C3: finalizing a session inserts exactly one scrobble with
`played_at = started_at`, `played_duration_ms` equal to the effective
duration (full duration when `accumulated + end_margin ≥ duration`, else the
accumulated time), and `skipped = (effective < duration × skip% / 100)`; it
inserts nothing and reports no scrobble when the session is already
scrobbled, has no stored metadata snapshot, fails the threshold predicate, or
some (user, provider) scrobble has `played_at` within 5 s of `started_at`. -/
theorem finalizeSession_spec (cfg : PlaybackConfig)
    (resolve : SpotifyTrackInput → ResolvedTrackMetadata) (userId : String)
    (session : PlaybackSession) (ps : PlaybackState) :
    (session.scrobbled = true →
      finalizeSession cfg resolve userId session ps = (false, ps)) ∧
    (session.track_metadata = none →
      finalizeSession cfg resolve userId session ps = (false, ps)) ∧
    (∀ tm, session.track_metadata = some tm →
      meetsScrobbleThreshold cfg.scrobble session.accumulated_ms
        (session.track_duration_ms.getD tm.duration_ms) = false →
      finalizeSession cfg resolve userId session ps = (false, ps)) ∧
    ((∃ s ∈ ps.store.scrobbles, s.user_id = userId ∧ s.provider = Provider.spotify ∧
        session.started_at - 5000 ≤ s.played_at ∧ s.played_at ≤ session.started_at + 5000) →
      finalizeSession cfg resolve userId session ps = (false, ps)) ∧
    (∀ tm, session.scrobbled = false → session.track_metadata = some tm →
      meetsScrobbleThreshold cfg.scrobble session.accumulated_ms
        (session.track_duration_ms.getD tm.duration_ms) = true →
      (∀ s ∈ ps.store.scrobbles, s.user_id = userId →
        ¬ (session.started_at - 5000 ≤ s.played_at ∧
           s.played_at ≤ session.started_at + 5000)) →
      (finalizeSession cfg resolve userId session ps).1 = true ∧
      ∃ tid aid,
        ((finalizeSession cfg resolve userId session ps).2).store.scrobbles =
          ps.store.scrobbles ++
            [{ user_id := userId, track_id := tid, album_id := aid,
               played_at := session.started_at,
               played_duration_ms := getEffectiveAccumulatedMs cfg session.accumulated_ms
                 (session.track_duration_ms.getD tm.duration_ms),
               skipped := isSkipped cfg session.accumulated_ms
                 (session.track_duration_ms.getD tm.duration_ms),
               provider := Provider.spotify }]) := by
  refine ⟨?_, ?_, ?_, ?_, ?_⟩
  · intro h
    simp [finalizeSession, h]
  · intro h
    simp only [finalizeSession]
    split
    · rfl
    · rw [h]
  · intro tm hmd hth
    simp only [finalizeSession, hmd, hth]
    split
    · rfl
    · simp
  · intro hdup
    simp only [finalizeSession]
    split
    · rfl
    · split
      · rfl
      · split
        · rfl
        · split
          · rfl
          · rename_i hno
            exfalso
            apply hno
            rw [List.any_eq_true]
            obtain ⟨s, hs, h1, h2, h3, h4⟩ := hdup
            exact ⟨s, hs, by simp [h1, h2, h3, h4]⟩
  · intro tm hns hmd hth hdd
    have hper := persistScrobbleFromMetadata_insert userId session.started_at
      (getEffectiveAccumulatedMs cfg session.accumulated_ms
        (session.track_duration_ms.getD tm.duration_ms))
      (resolve tm)
      (isSkipped cfg session.accumulated_ms (session.track_duration_ms.getD tm.duration_ms))
      ps.store
      (by
        intro s hs hu hpa
        refine absurd ?_ (hdd s hs hu)
        rw [hpa]
        constructor <;> linarith)
    simp only [finalizeSession]
    split
    · rename_i hsc
      rw [hns] at hsc
      exact absurd hsc (by decide)
    · split
      · rename_i heq
        rw [hmd] at heq
        exact absurd heq (by simp)
      · rename_i tm2 heq
        rw [hmd] at heq
        rw [Option.some.injEq] at heq
        subst heq
        split
        · rename_i hn
          exact absurd hth hn
        · split
          · rename_i ha
            exfalso
            rw [List.any_eq_true] at ha
            obtain ⟨s, hs, hp⟩ := ha
            simp only [Bool.and_eq_true, decide_eq_true_eq] at hp
            have huser : s.user_id = userId := by tauto
            have hw1 : session.started_at - 5000 ≤ s.played_at := by tauto
            have hw2 : s.played_at ≤ session.started_at + 5000 := by tauto
            exact absurd ⟨hw1, hw2⟩ (hdd s hs huser)
          · exact hper

/-- Witness for C3: a 60 s play of a 180 s track (threshold met via the 30 s
minimum, empty scrobbles table) finalizes into a scrobble. -/
theorem finalizeSession_spec_witness :
    (finalizeSession defaultPlaybackConfig
        (fun _ => { title := "T", durationMs := 180000, isrc := none, mbid := none,
                    explicit := false, primaryArtist := { name := "A", mbid := none },
                    artistCredits := [], album := none }) "u"
        { user_id := "u", provider := .spotify, track_uri := "spotify:track:x",
          started_at := 100000, last_seen_at := 0, last_progress_ms := 0,
          accumulated_ms := 60000, is_playing := true, track_duration_ms := some 180000,
          track_metadata := some { id := "x", name := "T", duration_ms := 180000, explicit := false, isrc := none },
          scrobbled := false }
        { store := { artists := [], albums := [], tracks := [], track_artists := [], track_albums := [], scrobbles := [], nextId := 0, syncRequests := [] },
          session := none }).1 = true :=
  ((finalizeSession_spec defaultPlaybackConfig
      (fun _ => { title := "T", durationMs := 180000, isrc := none, mbid := none,
                  explicit := false, primaryArtist := { name := "A", mbid := none },
                  artistCredits := [], album := none }) "u"
      { user_id := "u", provider := .spotify, track_uri := "spotify:track:x",
        started_at := 100000, last_seen_at := 0, last_progress_ms := 0,
        accumulated_ms := 60000, is_playing := true, track_duration_ms := some 180000,
        track_metadata := some { id := "x", name := "T", duration_ms := 180000, explicit := false, isrc := none },
        scrobbled := false }
      { store := { artists := [], albums := [], tracks := [], track_artists := [], track_albums := [], scrobbles := [], nextId := 0, syncRequests := [] },
        session := none }).2.2.2.2
    { id := "x", name := "T", duration_ms := 180000, explicit := false, isrc := none }
    rfl rfl
    (by norm_num [meetsScrobbleThreshold, defaultPlaybackConfig, defaultScrobbleConfig])
    (by intro s hs; simp at hs)).1

/-- C2: on a continuation poll (same track URI), with the stored `is_playing`
true, a wrap — the current session finalized as one play and replaced by a
fresh session started now with accumulated 0 — happens exactly when
`delta < −max(wrap_min_tolerance, duration × wrap% / 100)`; otherwise the
accumulated time gains `delta` when `0 < delta ≤ max_delta`, exactly
`max_delta` when `delta > max_delta`, and nothing when `delta ≤ 0`; with the
stored `is_playing` false the accumulated time is unchanged; in every
non-wrap case `last_seen_at`, `last_progress_ms` and `is_playing` are
updated while `started_at`, the metadata snapshot and the store are
preserved. -/
theorem processCurrentlyPlaying_continuation (cfg : PlaybackConfig)
    (resolve : SpotifyTrackInput → ResolvedTrackMetadata) (userId : String)
    (cp : CurrentlyPlaying) (track : CurrentTrack) (now : ℚ) (ps : PlaybackState)
    (session : PlaybackSession)
    (hmax : 0 ≤ cfg.maxDeltaMs)
    (hs : ps.session = some session)
    (hitem : cp.item = some track)
    (huri : session.track_uri = track.uri) :
    (session.is_playing = true →
      cp.progress_ms.getD 0 - session.last_progress_ms <
        -(max cfg.wrapMinToleranceMs (track.duration_ms * cfg.wrapThresholdPercent / 100)) →
      processCurrentlyPlaying cfg resolve userId (some cp) now ps =
        ({ scrobbled := (finalizeSession cfg resolve userId session ps).1,
           sessionUpdated := true },
         { (finalizeSession cfg resolve userId session ps).2 with
             session := some (freshPlaybackSession userId track.uri now
               (cp.progress_ms.getD 0) cp.is_playing track.duration_ms
               (trackInputOf track)) })) ∧
    (session.is_playing = true →
      ¬ (cp.progress_ms.getD 0 - session.last_progress_ms <
        -(max cfg.wrapMinToleranceMs (track.duration_ms * cfg.wrapThresholdPercent / 100))) →
      ∃ acc,
        processCurrentlyPlaying cfg resolve userId (some cp) now ps =
          ({ scrobbled := false, sessionUpdated := true },
           { ps with session := some (continuedSession userId session track.uri now
               (cp.progress_ms.getD 0) acc cp.is_playing track.duration_ms) }) ∧
        (0 < cp.progress_ms.getD 0 - session.last_progress_ms →
          cp.progress_ms.getD 0 - session.last_progress_ms ≤ cfg.maxDeltaMs →
          acc = session.accumulated_ms +
            (cp.progress_ms.getD 0 - session.last_progress_ms)) ∧
        (cfg.maxDeltaMs < cp.progress_ms.getD 0 - session.last_progress_ms →
          acc = session.accumulated_ms + cfg.maxDeltaMs) ∧
        (cp.progress_ms.getD 0 - session.last_progress_ms ≤ 0 →
          acc = session.accumulated_ms)) ∧
    (session.is_playing = false →
      processCurrentlyPlaying cfg resolve userId (some cp) now ps =
        ({ scrobbled := false, sessionUpdated := true },
         { ps with session := some (continuedSession userId session track.uri now
             (cp.progress_ms.getD 0) session.accumulated_ms cp.is_playing
             track.duration_ms) })) := by
  refine ⟨?_, ?_, ?_⟩
  · intro hip hw
    simp only [processCurrentlyPlaying, hitem, hs]
    rw [if_pos huri, if_pos ⟨hip, hw⟩]
  · intro hip hnw
    simp only [processCurrentlyPlaying, hitem, hs]
    rw [if_pos huri, if_neg (fun hc => hnw hc.2), if_pos hip]
    refine ⟨_, rfl, ?_, ?_, ?_⟩
    · intro h1 h2
      rw [if_pos ⟨h1, h2⟩]
    · intro h
      rw [if_neg (fun hc => absurd h (not_lt.mpr hc.2)), if_pos h]
    · intro h
      rw [if_neg (fun hc => absurd hc.1 (not_lt.mpr h)),
        if_neg (not_lt.mpr (le_trans h hmax))]
  · intro hipf
    simp only [processCurrentlyPlaying, hitem, hs]
    rw [if_pos huri, if_neg (fun hc => by simp [hipf] at hc), if_neg (by simp [hipf])]

/-- Witness for C2: a same-track poll with progress 10 000 → 18 000 ms while
playing (delta 8 s, no wrap) accumulates exactly the delta. -/
theorem processCurrentlyPlaying_continuation_witness :
    processCurrentlyPlaying defaultPlaybackConfig
        (fun _ => { title := "T", durationMs := 180000, isrc := none, mbid := none,
                    explicit := false, primaryArtist := { name := "A", mbid := none },
                    artistCredits := [], album := none }) "u"
        (some { item := some { uri := "spotify:track:x", id := "x", name := "T", duration_ms := 180000, explicit := false, isrc := none },
                progress_ms := some 18000, is_playing := true })
        8000
        { store := { artists := [], albums := [], tracks := [], track_artists := [], track_albums := [], scrobbles := [], nextId := 0, syncRequests := [] },
          session := some { user_id := "u", provider := .spotify, track_uri := "spotify:track:x", started_at := 0, last_seen_at := 0, last_progress_ms := 10000, accumulated_ms := 5000, is_playing := true, track_duration_ms := some 180000, track_metadata := some { id := "x", name := "T", duration_ms := 180000, explicit := false, isrc := none }, scrobbled := false } } =
      ({ scrobbled := false, sessionUpdated := true },
       { store := { artists := [], albums := [], tracks := [], track_artists := [], track_albums := [], scrobbles := [], nextId := 0, syncRequests := [] },
         session := some (continuedSession "u"
           { user_id := "u", provider := .spotify, track_uri := "spotify:track:x", started_at := 0, last_seen_at := 0, last_progress_ms := 10000, accumulated_ms := 5000, is_playing := true, track_duration_ms := some 180000, track_metadata := some { id := "x", name := "T", duration_ms := 180000, explicit := false, isrc := none }, scrobbled := false }
           "spotify:track:x" 8000 18000 13000 true 180000) }) := by
  obtain ⟨acc, hA, h1, h2, h3⟩ :=
    (processCurrentlyPlaying_continuation defaultPlaybackConfig
      (fun _ => { title := "T", durationMs := 180000, isrc := none, mbid := none,
                  explicit := false, primaryArtist := { name := "A", mbid := none },
                  artistCredits := [], album := none }) "u"
      { item := some { uri := "spotify:track:x", id := "x", name := "T", duration_ms := 180000, explicit := false, isrc := none },
        progress_ms := some 18000, is_playing := true }
      { uri := "spotify:track:x", id := "x", name := "T", duration_ms := 180000, explicit := false, isrc := none }
      8000
      { store := { artists := [], albums := [], tracks := [], track_artists := [], track_albums := [], scrobbles := [], nextId := 0, syncRequests := [] },
        session := some { user_id := "u", provider := .spotify, track_uri := "spotify:track:x", started_at := 0, last_seen_at := 0, last_progress_ms := 10000, accumulated_ms := 5000, is_playing := true, track_duration_ms := some 180000, track_metadata := some { id := "x", name := "T", duration_ms := 180000, explicit := false, isrc := none }, scrobbled := false } }
      { user_id := "u", provider := .spotify, track_uri := "spotify:track:x", started_at := 0, last_seen_at := 0, last_progress_ms := 10000, accumulated_ms := 5000, is_playing := true, track_duration_ms := some 180000, track_metadata := some { id := "x", name := "T", duration_ms := 180000, explicit := false, isrc := none }, scrobbled := false }
      (by norm_num [defaultPlaybackConfig]) rfl rfl rfl).2.1 rfl
      (by norm_num [defaultPlaybackConfig])
  rw [hA, h1 (by norm_num) (by norm_num [defaultPlaybackConfig])]
  norm_num

/-- C8: after every playback step that emits a scrobble, the session row
remaining for this (user, provider), if any, either is a fresh replacement
session (scrobbled false, accumulated 0, started now) or has its scrobbled
flag set to true. -/
theorem processCurrentlyPlaying_emit_session (cfg : PlaybackConfig)
    (resolve : SpotifyTrackInput → ResolvedTrackMetadata) (userId : String)
    (currentlyPlaying : Option CurrentlyPlaying) (now : ℚ) (ps : PlaybackState)
    (s2 : PlaybackSession)
    (hscr : (processCurrentlyPlaying cfg resolve userId currentlyPlaying
      now ps).1.scrobbled = true)
    (hs2 : ((processCurrentlyPlaying cfg resolve userId currentlyPlaying
      now ps).2).session = some s2) :
    (s2.scrobbled = false ∧ s2.accumulated_ms = 0 ∧ s2.started_at = now) ∨
    s2.scrobbled = true := by
  revert hscr hs2
  simp only [processCurrentlyPlaying]
  split
  · split
    · split
      · intro hscr hs2
        simp at hs2
      · intro hscr hs2
        simp at hscr
    · intro hscr hs2
      simp at hscr
  · split
    · split
      · split
        · intro hscr hs2
          simp at hs2
        · intro hscr hs2
          simp at hscr
      · intro hscr hs2
        simp at hscr
    · split
      · intro hscr hs2
        simp at hscr
      · split
        · split
          · intro hscr hs2
            simp only [Option.some.injEq] at hs2
            subst hs2
            exact Or.inl ⟨rfl, rfl, rfl⟩
          · intro hscr hs2
            simp at hscr
        · intro hscr hs2
          simp only [Option.some.injEq] at hs2
          subst hs2
          exact Or.inl ⟨rfl, rfl, rfl⟩

/-- Witness for C8: a track change away from a finalizable session emits a
scrobble and leaves the fresh replacement session. -/
theorem processCurrentlyPlaying_emit_session_witness :
    (({ user_id := "u", provider := Provider.spotify, track_uri := "spotify:track:y", started_at := 500000, last_seen_at := 500000, last_progress_ms := 0, accumulated_ms := 0, is_playing := true, track_duration_ms := some 200000, track_metadata := some { id := "y", name := "U", duration_ms := 200000, explicit := false, isrc := none }, scrobbled := false } : PlaybackSession).scrobbled = false ∧
      ({ user_id := "u", provider := Provider.spotify, track_uri := "spotify:track:y", started_at := 500000, last_seen_at := 500000, last_progress_ms := 0, accumulated_ms := 0, is_playing := true, track_duration_ms := some 200000, track_metadata := some { id := "y", name := "U", duration_ms := 200000, explicit := false, isrc := none }, scrobbled := false } : PlaybackSession).accumulated_ms = 0 ∧
      ({ user_id := "u", provider := Provider.spotify, track_uri := "spotify:track:y", started_at := 500000, last_seen_at := 500000, last_progress_ms := 0, accumulated_ms := 0, is_playing := true, track_duration_ms := some 200000, track_metadata := some { id := "y", name := "U", duration_ms := 200000, explicit := false, isrc := none }, scrobbled := false } : PlaybackSession).started_at = 500000) ∨
    ({ user_id := "u", provider := Provider.spotify, track_uri := "spotify:track:y", started_at := 500000, last_seen_at := 500000, last_progress_ms := 0, accumulated_ms := 0, is_playing := true, track_duration_ms := some 200000, track_metadata := some { id := "y", name := "U", duration_ms := 200000, explicit := false, isrc := none }, scrobbled := false } : PlaybackSession).scrobbled = true := by
  exact processCurrentlyPlaying_emit_session defaultPlaybackConfig
    (fun _ => { title := "T", durationMs := 180000, isrc := none, mbid := none,
                explicit := false, primaryArtist := { name := "A", mbid := none },
                artistCredits := [], album := none }) "u"
    (some { item := some { uri := "spotify:track:y", id := "y", name := "U", duration_ms := 200000, explicit := false, isrc := none },
            progress_ms := some 0, is_playing := true })
    500000
    { store := { artists := [], albums := [], tracks := [], track_artists := [], track_albums := [], scrobbles := [], nextId := 0, syncRequests := [] },
      session := some { user_id := "u", provider := .spotify, track_uri := "spotify:track:x", started_at := 100000, last_seen_at := 400000, last_progress_ms := 170000, accumulated_ms := 60000, is_playing := true, track_duration_ms := some 180000, track_metadata := some { id := "x", name := "T", duration_ms := 180000, explicit := false, isrc := none }, scrobbled := false } }
    { user_id := "u", provider := Provider.spotify, track_uri := "spotify:track:y", started_at := 500000, last_seen_at := 500000, last_progress_ms := 0, accumulated_ms := 0, is_playing := true, track_duration_ms := some 200000, track_metadata := some { id := "y", name := "U", duration_ms := 200000, explicit := false, isrc := none }, scrobbled := false }
    (by norm_num [processCurrentlyPlaying, finalizeSession, persistScrobbleFromMetadata,
      upsertTrack, linkTrackArtists, linkAlbumOf, insertScrobble, meetsScrobbleThreshold,
      getEffectiveAccumulatedMs, isSkipped, defaultPlaybackConfig, defaultScrobbleConfig,
      freshPlaybackSession, trackInputOf])
    (by norm_num [processCurrentlyPlaying, finalizeSession, persistScrobbleFromMetadata,
      upsertTrack, linkTrackArtists, linkAlbumOf, insertScrobble, meetsScrobbleThreshold,
      getEffectiveAccumulatedMs, isSkipped, defaultPlaybackConfig, defaultScrobbleConfig,
      freshPlaybackSession, trackInputOf])

/-- The cursor component of the reconciler loop ignores the store: it is the
`latestStep` fold over the events' `playedAt` values. -/
theorem scrobbleLoopStep_foldl_fst (resolve : ProcessedPlayEvent → ResolvedTrackMetadata)
    (userId : String) (events : List ProcessedPlayEvent) (acc : Option ℚ × Store) :
    (events.foldl (scrobbleLoopStep resolve userId) acc).1 =
      (events.map ProcessedPlayEvent.playedAt).foldl latestStep acc.1 := by
  induction events generalizing acc with
  | nil => rfl
  | cons e es ih =>
    simp only [List.foldl_cons, List.map_cons]
    rw [ih]
    congr 1
    simp only [scrobbleLoopStep]
    split <;> rfl

/-- Folding `latestStep` from `some c` yields a maximum of `c` and the
list. -/
theorem latestStep_foldl_some (xs : List ℚ) (c : ℚ) :
    ∃ m, xs.foldl latestStep (some c) = some m ∧ c ≤ m ∧ (m = c ∨ m ∈ xs) ∧
      ∀ x ∈ xs, x ≤ m := by
  induction xs generalizing c with
  | nil => exact ⟨c, rfl, le_refl c, Or.inl rfl, by simp⟩
  | cons x xs ih =>
    simp only [List.foldl_cons, latestStep]
    by_cases h : c < x
    · rw [if_pos h]
      obtain ⟨m, h1, h2, h3, h4⟩ := ih x
      refine ⟨m, h1, le_trans (le_of_lt h) h2, ?_, ?_⟩
      · rcases h3 with h3 | h3
        · exact Or.inr (by simp [h3])
        · exact Or.inr (List.mem_cons_of_mem x h3)
      · intro y hy
        rcases List.mem_cons.mp hy with hy | hy
        · subst hy
          exact h2
        · exact h4 y hy
    · rw [if_neg h]
      obtain ⟨m, h1, h2, h3, h4⟩ := ih c
      refine ⟨m, h1, h2, ?_, ?_⟩
      · rcases h3 with h3 | h3
        · exact Or.inl h3
        · exact Or.inr (List.mem_cons_of_mem x h3)
      · intro y hy
        rcases List.mem_cons.mp hy with hy | hy
        · subst hy
          exact le_trans (not_lt.mp h) h2
        · exact h4 y hy

/-- Source: `processPlayEvents` keeps the plays' timestamps in order and unchanged. -/
theorem processPlayEvents_map_playedAt (cfg : ScrobbleConfig)
    (items : List RecentlyPlayedItem) :
    (processPlayEvents cfg items).map ProcessedPlayEvent.playedAt =
      items.map RecentlyPlayedItem.played_at := by
  have h1 : (processPlayEvents cfg items).map ProcessedPlayEvent.playedAt =
      items.enum.map (fun p => p.2.played_at) := by
    simp only [processPlayEvents, List.map_map]
    rfl
  have h2 : items.enum.map (fun p : ℕ × RecentlyPlayedItem => p.2.played_at) =
      items.map RecentlyPlayedItem.played_at := by
    rw [show (fun p : ℕ × RecentlyPlayedItem => p.2.played_at) =
      (RecentlyPlayedItem.played_at ∘ Prod.snd) from rfl, ← List.map_map]
    simp
  exact h1.trans h2

/-- C7: after a run whose fetch returned at least one play, the cursor equals
the maximum `played_at` of the batch (plays below the threshold included);
and under the fetch-after contract — every fetched play strictly newer than
the stored cursor — the cursor never decreases. -/
theorem processAccountScrobbles_cursor (cfg : ScrobbleConfig)
    (resolve : ProcessedPlayEvent → ResolvedTrackMetadata) (userId : String)
    (plays : List RecentlyPlayedItem) (rs : ReconcilerState)
    (hne : plays ≠ []) :
    (∃ t, (processAccountScrobbles cfg resolve userId plays rs).cursor = some t ∧
      t ∈ plays.map RecentlyPlayedItem.played_at ∧
      ∀ p ∈ plays, p.played_at ≤ t) ∧
    (∀ c t, rs.cursor = some c →
      (∀ p ∈ plays, c < p.played_at) →
      (processAccountScrobbles cfg resolve userId plays rs).cursor = some t →
      c ≤ t) := by
  obtain ⟨q, qs, rfl⟩ := List.exists_cons_of_ne_nil hne
  obtain ⟨m, hmeq, hle, hmem, hbound⟩ :=
    latestStep_foldl_some (qs.map RecentlyPlayedItem.played_at) q.played_at
  have hfst : ((processPlayEvents cfg (q :: qs)).foldl (scrobbleLoopStep resolve userId)
      (none, rs.store)).1 = some m := by
    rw [scrobbleLoopStep_foldl_fst, processPlayEvents_map_playedAt]
    simpa only [List.map_cons, List.foldl_cons, latestStep] using hmeq
  have hcur : (processAccountScrobbles cfg resolve userId (q :: qs) rs).cursor = some m := by
    simp only [processAccountScrobbles]
    rw [if_neg (by simp)]
    rw [hfst]
  constructor
  · refine ⟨m, hcur, ?_, ?_⟩
    · rcases hmem with hm | hm
      · simp [hm]
      · simp only [List.map_cons, List.mem_cons]
        exact Or.inr hm
    · intro p hp
      rcases List.mem_cons.mp hp with hp | hp
      · subst hp
        exact hle
      · exact hbound p.played_at (List.mem_map_of_mem RecentlyPlayedItem.played_at hp)
  · intro c t hc hlt hct
    rw [hcur] at hct
    rw [Option.some.injEq] at hct
    subst hct
    exact le_trans (le_of_lt (hlt q (List.mem_cons_self q qs))) hle

/-- Witness for C7: a two-play batch advances the cursor from 50 to the
maximum played_at 300, past the below-threshold play at 200. -/
theorem processAccountScrobbles_cursor_witness :
    (processAccountScrobbles defaultScrobbleConfig
        (fun _ => { title := "T", durationMs := 180000, isrc := none, mbid := none,
                    explicit := false, primaryArtist := { name := "A", mbid := none },
                    artistCredits := [], album := none }) "u"
        [{ played_at := 300, track_duration_ms := 180000 },
         { played_at := 200, track_duration_ms := 180000 }]
        { store := { artists := [], albums := [], tracks := [], track_artists := [], track_albums := [], scrobbles := [], nextId := 0, syncRequests := [] },
          cursor := some 50 }).cursor = some 300 := by
  obtain ⟨⟨t, hc, hmem, hmax⟩, hmono⟩ := processAccountScrobbles_cursor defaultScrobbleConfig
    (fun _ => { title := "T", durationMs := 180000, isrc := none, mbid := none,
                explicit := false, primaryArtist := { name := "A", mbid := none },
                artistCredits := [], album := none }) "u"
    [{ played_at := 300, track_duration_ms := 180000 },
     { played_at := 200, track_duration_ms := 180000 }]
    { store := { artists := [], albums := [], tracks := [], track_artists := [], track_albums := [], scrobbles := [], nextId := 0, syncRequests := [] },
      cursor := some 50 }
    (by simp)
  rw [hc]
  have h300 : (300 : ℚ) ≤ t := hmax { played_at := 300, track_duration_ms := 180000 } (by simp)
  have hcases : t = 300 ∨ t = 200 := by
    simpa using hmem
  rcases hcases with h | h
  · rw [h]
  · rw [h] at h300
    norm_num at h300

/-- Source: `upsertArtist` does not touch the track↔artist links. -/
theorem upsertArtist_track_artists (name : String) (mbid : Option String) (st : Store) :
    ((upsertArtist name mbid st).2).track_artists = st.track_artists := by
  simp only [upsertArtist, triggerAutoSync]
  split
  · rfl
  · split
    · split <;> rfl
    · split <;> rfl

/-- Source: `upsertArtist` does not touch the track↔album links. -/
theorem upsertArtist_track_albums (name : String) (mbid : Option String) (st : Store) :
    ((upsertArtist name mbid st).2).track_albums = st.track_albums := by
  simp only [upsertArtist, triggerAutoSync]
  split
  · rfl
  · split
    · split <;> rfl
    · split <;> rfl

/-- Source: `upsertArtist` does not touch the albums table. -/
theorem upsertArtist_albums (name : String) (mbid : Option String) (st : Store) :
    ((upsertArtist name mbid st).2).albums = st.albums := by
  simp only [upsertArtist, triggerAutoSync]
  split
  · rfl
  · split
    · split <;> rfl
    · split <;> rfl

/-- Artist ids survive `upsertArtist` (updates only attach MBIDs). -/
theorem upsertArtist_artists_ids (name : String) (mbid : Option String) (st : Store)
    (a : ArtistRow) (ha : a ∈ st.artists) :
    ∃ a2 ∈ ((upsertArtist name mbid st).2).artists, a2.id = a.id := by
  simp only [upsertArtist, triggerAutoSync]
  split
  · exact ⟨a, ha, rfl⟩
  · split
    · split
      · exact ⟨_, List.mem_map_of_mem _ ha, by split <;> rfl⟩
      · exact ⟨a, ha, rfl⟩
    · split
      · exact ⟨a, List.mem_append_left _ ha, rfl⟩
      · exact ⟨a, List.mem_append_left _ ha, rfl⟩

/-- The id `upsertArtist` returns belongs to an artist row of its result. -/
theorem upsertArtist_id_mem (name : String) (mbid : Option String) (st : Store) :
    ∃ a ∈ ((upsertArtist name mbid st).2).artists,
      a.id = (upsertArtist name mbid st).1 := by
  simp only [upsertArtist, triggerAutoSync]
  split
  · rename_i existing hfind
    cases hmb : mbid with
    | none =>
      rw [hmb] at hfind
      simp at hfind
    | some m =>
      rw [hmb] at hfind
      exact ⟨existing, List.mem_of_find?_eq_some hfind, rfl⟩
  · split
    · rename_i existingByName hname
      split
      · refine ⟨_, List.mem_map_of_mem _ (List.mem_of_find?_eq_some hname), ?_⟩
        simp
      · exact ⟨existingByName, List.mem_of_find?_eq_some hname, rfl⟩
    · split
      · exact ⟨_, List.mem_append_right _ (List.mem_singleton_self _), rfl⟩
      · exact ⟨_, List.mem_append_right _ (List.mem_singleton_self _), rfl⟩

/-- Source: `upsertAlbum` does not touch the artists table. -/
theorem upsertAlbum_artists (title : String) (artistId : Nat) (mbid : Option String)
    (releaseDate imageUrl : Option String) (st : Store) :
    ((upsertAlbum title artistId mbid releaseDate imageUrl st).2).artists = st.artists := by
  simp only [upsertAlbum]
  split
  · rfl
  · split
    · split <;> rfl
    · rfl

/-- Source: `upsertAlbum` does not touch the track↔artist links. -/
theorem upsertAlbum_track_artists (title : String) (artistId : Nat) (mbid : Option String)
    (releaseDate imageUrl : Option String) (st : Store) :
    ((upsertAlbum title artistId mbid releaseDate imageUrl st).2).track_artists =
      st.track_artists := by
  simp only [upsertAlbum]
  split
  · rfl
  · split
    · split <;> rfl
    · rfl

/-- Source: `upsertAlbum` does not touch the track↔album links. -/
theorem upsertAlbum_track_albums (title : String) (artistId : Nat) (mbid : Option String)
    (releaseDate imageUrl : Option String) (st : Store) :
    ((upsertAlbum title artistId mbid releaseDate imageUrl st).2).track_albums =
      st.track_albums := by
  simp only [upsertAlbum]
  split
  · rfl
  · split
    · split <;> rfl
    · rfl

/-- The id `upsertAlbum` returns belongs to an album row of its result. -/
theorem upsertAlbum_id_mem (title : String) (artistId : Nat) (mbid : Option String)
    (releaseDate imageUrl : Option String) (st : Store) :
    ∃ b ∈ ((upsertAlbum title artistId mbid releaseDate imageUrl st).2).albums,
      b.id = (upsertAlbum title artistId mbid releaseDate imageUrl st).1 := by
  simp only [upsertAlbum]
  split
  · rename_i existing hfind
    cases hmb : mbid with
    | none =>
      rw [hmb] at hfind
      simp at hfind
    | some m =>
      rw [hmb] at hfind
      exact ⟨existing, List.mem_of_find?_eq_some hfind, rfl⟩
  · split
    · rename_i existingByTitle htitle
      split
      · refine ⟨_, List.mem_map_of_mem _ (List.mem_of_find?_eq_some htitle), ?_⟩
        simp
      · exact ⟨existingByTitle, List.mem_of_find?_eq_some htitle, rfl⟩
    · exact ⟨_, List.mem_append_right _ (List.mem_singleton_self _), rfl⟩

/-- Source: `upsertTrack` does not touch the artists table. -/
theorem upsertTrack_artists (metadata : ResolvedTrackMetadata) (st : Store) :
    ((upsertTrack metadata st).2).artists = st.artists := by
  simp only [upsertTrack]
  split
  · split <;> rfl
  · split
    · rfl
    · rfl

/-- Source: `upsertTrack` does not touch the albums table. -/
theorem upsertTrack_albums (metadata : ResolvedTrackMetadata) (st : Store) :
    ((upsertTrack metadata st).2).albums = st.albums := by
  simp only [upsertTrack]
  split
  · split <;> rfl
  · split
    · rfl
    · rfl

/-- Source: `upsertTrack` does not touch the track↔artist links. -/
theorem upsertTrack_track_artists (metadata : ResolvedTrackMetadata) (st : Store) :
    ((upsertTrack metadata st).2).track_artists = st.track_artists := by
  simp only [upsertTrack]
  split
  · split <;> rfl
  · split
    · rfl
    · rfl

/-- Source: `upsertTrack` does not touch the track↔album links. -/
theorem upsertTrack_track_albums (metadata : ResolvedTrackMetadata) (st : Store) :
    ((upsertTrack metadata st).2).track_albums = st.track_albums := by
  simp only [upsertTrack]
  split
  · split <;> rfl
  · split
    · rfl
    · rfl

/-- Source: `linkTrackAlbum` does not touch the artists table. -/
theorem linkTrackAlbum_artists (trackId albumId : Nat) (st : Store) :
    (linkTrackAlbum trackId albumId st).artists = st.artists := by
  simp only [linkTrackAlbum]
  split <;> rfl

/-- Source: `linkTrackAlbum` does not touch the albums table. -/
theorem linkTrackAlbum_albums (trackId albumId : Nat) (st : Store) :
    (linkTrackAlbum trackId albumId st).albums = st.albums := by
  simp only [linkTrackAlbum]
  split <;> rfl

/-- Source: `linkTrackAlbum` does not touch the track↔artist links. -/
theorem linkTrackAlbum_track_artists (trackId albumId : Nat) (st : Store) :
    (linkTrackAlbum trackId albumId st).track_artists = st.track_artists := by
  simp only [linkTrackAlbum]
  split <;> rfl

/-- After `linkTrackAlbum` a (trackId, albumId) link row exists. -/
theorem linkTrackAlbum_creates (trackId albumId : Nat) (st : Store) :
    ∃ row ∈ (linkTrackAlbum trackId albumId st).track_albums,
      row.track_id = trackId ∧ row.album_id = albumId := by
  simp only [linkTrackAlbum]
  split
  · rename_i row0 hfind
    have hp := List.find?_some hfind
    simp only [decide_eq_true_eq] at hp
    exact ⟨row0, List.mem_of_find?_eq_some hfind, hp.1, hp.2⟩
  · exact ⟨_, List.mem_append_right _ (List.mem_singleton_self _), rfl, rfl⟩

/-- Source: `linkTrackAlbum` to an existing album row yields a live album link. -/
theorem linkTrackAlbum_album_link (trackId albumId : Nat) (st : Store)
    (hb : ∃ b ∈ st.albums, b.id = albumId) :
    trackAlbumLinkExists trackId (linkTrackAlbum trackId albumId st) := by
  obtain ⟨b, hbmem, hbid⟩ := hb
  obtain ⟨row, hrow, h1, h2⟩ := linkTrackAlbum_creates trackId albumId st
  refine ⟨row, hrow, h1, b, ?_, hbid.trans h2.symm⟩
  rw [linkTrackAlbum_albums]
  exact hbmem

/-- Artist ids survive one `linkTrackArtists` iteration. -/
theorem linkOneTrackArtist_artists_ids (trackId : Nat) (credit : ArtistCredit)
    (st : Store) (a : ArtistRow) (ha : a ∈ st.artists) :
    ∃ a2 ∈ (linkOneTrackArtist trackId credit st).artists, a2.id = a.id := by
  simp only [linkOneTrackArtist]
  split
  · exact upsertArtist_artists_ids _ _ _ a ha
  · exact upsertArtist_artists_ids credit.name credit.mbid st a ha

/-- Track↔artist links survive one `linkTrackArtists` iteration. -/
theorem linkOneTrackArtist_track_artists_mono (trackId : Nat) (credit : ArtistCredit)
    (st : Store) (r : TrackArtistRow) (hr : r ∈ st.track_artists) :
    r ∈ (linkOneTrackArtist trackId credit st).track_artists := by
  simp only [linkOneTrackArtist]
  split
  · rw [upsertArtist_track_artists]
    exact hr
  · refine List.mem_append_left _ ?_
    rw [upsertArtist_track_artists]
    exact hr

/-- One `linkTrackArtists` iteration leaves a live track↔artist link. -/
theorem linkOneTrackArtist_creates (trackId : Nat) (credit : ArtistCredit) (st : Store) :
    trackArtistLinkExists trackId (linkOneTrackArtist trackId credit st) := by
  obtain ⟨a, hamem, haid⟩ := upsertArtist_id_mem credit.name credit.mbid st
  simp only [linkOneTrackArtist, trackArtistLinkExists]
  split
  · rename_i row0 hfind
    have hp := List.find?_some hfind
    simp only [decide_eq_true_eq] at hp
    exact ⟨row0, List.mem_of_find?_eq_some hfind, hp.1, a, hamem, haid.trans hp.2.symm⟩
  · exact ⟨_, List.mem_append_right _ (List.mem_singleton_self _), rfl, a, hamem, haid⟩

/-- A live track↔artist link survives one `linkTrackArtists` iteration. -/
theorem trackArtistLinkExists_mono_linkOne (tid2 trackId : Nat) (credit : ArtistCredit)
    (st : Store) (h : trackArtistLinkExists tid2 st) :
    trackArtistLinkExists tid2 (linkOneTrackArtist trackId credit st) := by
  obtain ⟨row, hrow, htid, a, ha, hid⟩ := h
  obtain ⟨a2, ha2, hid2⟩ := linkOneTrackArtist_artists_ids trackId credit st a ha
  exact ⟨row, linkOneTrackArtist_track_artists_mono trackId credit st row hrow, htid,
    a2, ha2, hid2.trans hid⟩

/-- A live track↔artist link survives `linkTrackArtists`. -/
theorem trackArtistLinkExists_mono_fold (tid2 trackId : Nat)
    (credits : List ArtistCredit) (st : Store) (h : trackArtistLinkExists tid2 st) :
    trackArtistLinkExists tid2 (linkTrackArtists trackId credits st) := by
  induction credits generalizing st with
  | nil => exact h
  | cons c cs ih =>
    exact ih (linkOneTrackArtist trackId c st)
      (trackArtistLinkExists_mono_linkOne tid2 trackId c st h)

/-- Source: `linkTrackArtists` over a nonempty credit list leaves a live link. -/
theorem linkTrackArtists_creates (trackId : Nat) (credits : List ArtistCredit)
    (st : Store) (hne : credits ≠ []) :
    trackArtistLinkExists trackId (linkTrackArtists trackId credits st) := by
  obtain ⟨c, cs, rfl⟩ := List.exists_cons_of_ne_nil hne
  exact trackArtistLinkExists_mono_fold trackId trackId cs (linkOneTrackArtist trackId c st)
    (linkOneTrackArtist_creates trackId c st)

/-- The album step does not touch the track↔artist links. -/
theorem linkAlbumOf_track_artists (trackId : Nat) (metadata : ResolvedTrackMetadata)
    (st : Store) :
    ((linkAlbumOf trackId metadata st).2).track_artists = st.track_artists := by
  simp only [linkAlbumOf]
  split
  · rw [linkTrackAlbum_track_artists, upsertAlbum_track_artists, upsertArtist_track_artists]
  · rfl

/-- Artist ids survive the album step. -/
theorem linkAlbumOf_artists_ids (trackId : Nat) (metadata : ResolvedTrackMetadata)
    (st : Store) (a : ArtistRow) (ha : a ∈ st.artists) :
    ∃ a2 ∈ ((linkAlbumOf trackId metadata st).2).artists, a2.id = a.id := by
  simp only [linkAlbumOf]
  split
  · rw [linkTrackAlbum_artists, upsertAlbum_artists]
    exact upsertArtist_artists_ids _ _ _ a ha
  · exact ⟨a, ha, rfl⟩

/-- A live track↔artist link survives the album step. -/
theorem trackArtistLinkExists_mono_linkAlbumOf (tid2 trackId : Nat)
    (metadata : ResolvedTrackMetadata) (st : Store)
    (h : trackArtistLinkExists tid2 st) :
    trackArtistLinkExists tid2 ((linkAlbumOf trackId metadata st).2) := by
  obtain ⟨row, hrow, htid, a, ha, hid⟩ := h
  obtain ⟨a2, ha2, hid2⟩ := linkAlbumOf_artists_ids trackId metadata st a ha
  refine ⟨row, ?_, htid, a2, ha2, hid2.trans hid⟩
  rw [linkAlbumOf_track_artists]
  exact hrow

/-- When an album is present the album step leaves a live album link. -/
theorem linkAlbumOf_creates (trackId : Nat) (metadata : ResolvedTrackMetadata)
    (st : Store) (alb : AlbumMeta) (halb : metadata.album = some alb) :
    trackAlbumLinkExists trackId ((linkAlbumOf trackId metadata st).2) := by
  simp only [linkAlbumOf, halb]
  exact linkTrackAlbum_album_link trackId _ _ (upsertAlbum_id_mem _ _ _ _ _ _)

/-- C4: inside the reconciler's ±10-minute dedupe window — a scrobble of the
same (user, track) with `played_at` within `DEDUPE_WINDOW_MS` of the
candidate — `persistScrobble` inserts no scrobble row, while the linking
steps still run: the final state is exactly the output of the artist/album
linking code, some track↔artist link for the track exists whenever credits
are present, and the track↔album link exists whenever an album is present. -/
theorem persistScrobble_dedupe (userId : String) (event : ProcessedPlayEvent)
    (metadata : ResolvedTrackMetadata) (st : Store)
    (hdup : ∃ s ∈ st.scrobbles, s.user_id = userId ∧
      s.track_id = (upsertTrack metadata st).1 ∧
      event.playedAt - DEDUPE_WINDOW_MS ≤ s.played_at ∧
      s.played_at ≤ event.playedAt + DEDUPE_WINDOW_MS) :
    (persistScrobble userId event metadata st).1 = false ∧
    ((persistScrobble userId event metadata st).2).scrobbles = st.scrobbles ∧
    (persistScrobble userId event metadata st).2 =
      (linkAlbumOf (upsertTrack metadata st).1 metadata
        (linkTrackArtists (upsertTrack metadata st).1 metadata.artistCredits
          (upsertTrack metadata st).2)).2 ∧
    (metadata.artistCredits ≠ [] →
      trackArtistLinkExists (upsertTrack metadata st).1
        ((persistScrobble userId event metadata st).2)) ∧
    (∀ alb, metadata.album = some alb →
      trackAlbumLinkExists (upsertTrack metadata st).1
        ((persistScrobble userId event metadata st).2)) := by
  have hwin : hasExistingScrobbleInWindow userId (upsertTrack metadata st).1
      event.playedAt (upsertTrack metadata st).2 = true := by
    simp only [hasExistingScrobbleInWindow, List.any_eq_true]
    obtain ⟨s, hs, h1, h2, h3, h4⟩ := hdup
    refine ⟨s, ?_, ?_⟩
    · rw [upsertTrack_scrobbles]
      exact hs
    · simp [h1, h2, h3, h4]
  have heq : persistScrobble userId event metadata st =
      (false, (linkAlbumOf (upsertTrack metadata st).1 metadata
        (linkTrackArtists (upsertTrack metadata st).1 metadata.artistCredits
          (upsertTrack metadata st).2)).2) := by
    simp only [persistScrobble]
    rw [if_pos hwin]
  rw [heq]
  refine ⟨rfl, ?_, rfl, ?_, ?_⟩
  · rw [linkAlbumOf_scrobbles, linkTrackArtists_scrobbles, upsertTrack_scrobbles]
  · intro hne
    exact trackArtistLinkExists_mono_linkAlbumOf _ _ _ _
      (linkTrackArtists_creates _ _ _ hne)
  · intro alb halb
    exact linkAlbumOf_creates _ _ _ alb halb

/-- Witness for C4: a play 1 s after an existing scrobble of the same
(user, track) is suppressed while the state keeps its scrobble list. -/
theorem persistScrobble_dedupe_witness :
    (persistScrobble "u"
        { item := { played_at := 2000, track_duration_ms := 180000 },
          playedAt := 2000, estimatedDurationMs := 180000, meetsThreshold := true }
        { title := "T", durationMs := 180000, isrc := some "ISRC1", mbid := none,
          explicit := false, primaryArtist := { name := "A", mbid := none },
          artistCredits := [], album := none }
        { artists := [], albums := [], tracks := [{ id := 7, title := "T", duration_ms := 180000, mbid := none, isrc := some "ISRC1", explicit := false }], track_artists := [], track_albums := [], scrobbles := [{ user_id := "u", track_id := 7, album_id := none, played_at := 1000, played_duration_ms := 60000, skipped := false, provider := .spotify }], nextId := 8, syncRequests := [] }).1 = false ∧
    ((persistScrobble "u"
        { item := { played_at := 2000, track_duration_ms := 180000 },
          playedAt := 2000, estimatedDurationMs := 180000, meetsThreshold := true }
        { title := "T", durationMs := 180000, isrc := some "ISRC1", mbid := none,
          explicit := false, primaryArtist := { name := "A", mbid := none },
          artistCredits := [], album := none }
        { artists := [], albums := [], tracks := [{ id := 7, title := "T", duration_ms := 180000, mbid := none, isrc := some "ISRC1", explicit := false }], track_artists := [], track_albums := [], scrobbles := [{ user_id := "u", track_id := 7, album_id := none, played_at := 1000, played_duration_ms := 60000, skipped := false, provider := .spotify }], nextId := 8, syncRequests := [] }).2).scrobbles =
      [{ user_id := "u", track_id := 7, album_id := none, played_at := 1000, played_duration_ms := 60000, skipped := false, provider := .spotify }] := by
  have h := persistScrobble_dedupe "u"
    { item := { played_at := 2000, track_duration_ms := 180000 },
      playedAt := 2000, estimatedDurationMs := 180000, meetsThreshold := true }
    { title := "T", durationMs := 180000, isrc := some "ISRC1", mbid := none,
      explicit := false, primaryArtist := { name := "A", mbid := none },
      artistCredits := [], album := none }
    { artists := [], albums := [], tracks := [{ id := 7, title := "T", duration_ms := 180000, mbid := none, isrc := some "ISRC1", explicit := false }], track_artists := [], track_albums := [], scrobbles := [{ user_id := "u", track_id := 7, album_id := none, played_at := 1000, played_duration_ms := 60000, skipped := false, provider := .spotify }], nextId := 8, syncRequests := [] }
    ⟨{ user_id := "u", track_id := 7, album_id := none, played_at := 1000, played_duration_ms := 60000, skipped := false, provider := .spotify },
      by simp, rfl, by simp [upsertTrack],
      by norm_num [DEDUPE_WINDOW_MS], by norm_num [DEDUPE_WINDOW_MS]⟩
  exact ⟨h.1, h.2.1⟩

end Playbacc
